import Mathlib

/-!
# Music library controller

A shallow embedding of the `MusicLibrary` class of `static/js/app.js`: the
controller fields become a record, every method becomes a function from the
state before the call to the state after it, and whatever the browser or the
REST service answers during the call (the response of a `fetch`, the
settlement of `audioPlayer.play()`, the answer to `confirm`, the value drawn
by `Math.random`) is an explicit argument of the function.

Each method is run to completion before the next event is handled: the
model is the sequential one, in which no second event arrives while an
`await` is pending.

Numbers that go through floating-point arithmetic (the random draw, the
pointer position and the duration in `seekSong`, the argument of
`formatTime`) are binary64 values, held as the rationals they stand for;
every operation on them rounds its exact result to the nearest double.
-/

namespace MusicLibrary

/-! ## Data model -/

/-- The song records of the service. An absent optional field (`artist`,
`album`) is the empty string, the value that `||` treats as missing. -/
structure Song where
  id : Nat
  title : String
  artist : String
  album : String
  duration : Nat
  play_count : Nat
deriving DecidableEq

/-- The playlist records of `GET /api/playlists`. -/
structure Playlist where
  id : Nat
  name : String
  song_count : Nat
deriving DecidableEq

/-- The second argument of `showNotification` (`'success'` when omitted). -/
inductive NotificationType where
  | success
  | error
  | warning
deriving DecidableEq

/-- One call of `showNotification(message, type)`. -/
structure Notification where
  message : String
  type : NotificationType
deriving DecidableEq

/-- The requests the controller sends with `fetch`, one constructor per URL
template and method. -/
inductive Request where
  /-- `GET /api/library/stats` -/
  | getStats
  /-- `GET /api/playlists` -/
  | getPlaylists
  /-- `GET /api/songs?sort_by=..&order=ASC` -/
  | getSongs (sortBy : String)
  /-- `GET /api/songs/search?q=..` -/
  | getSearch (query : String)
  /-- `GET /api/playlists/{id}` -/
  | getPlaylist (playlistId : String)
  /-- `POST /api/songs/upload` with the named file as body -/
  | postUpload (fileName : String)
  /-- `POST /api/songs/{id}/play` -/
  | postPlay (songId : Nat)
  /-- `POST /api/playlists` -/
  | postPlaylist (name description : String)
  /-- `POST /api/playlists/{id}/songs/{songId}` -/
  | postPlaylistSong (playlistId : String) (songId : Nat)
  /-- `DELETE /api/playlists/{id}/songs/{songId}` -/
  | deletePlaylistSong (playlistId : String) (songId : Nat)
  /-- `DELETE /api/songs/{id}` -/
  | deleteSong (songId : Nat)
  /-- `DELETE /api/playlists/{id}` -/
  | deletePlaylist (playlistId : Nat)
deriving DecidableEq

/-- What a `fetch` gives back: a response with `ok` true and its parsed
body, a response with `ok` false whose JSON body carries the message
`error`, or a rejected promise. -/
inductive Fetch (α : Type) where
  | ok (body : α)
  | fail (error : String)
  | networkError
deriving DecidableEq

/-- How the promise returned by `audioPlayer.play()` settles. -/
inductive PlayOutcome where
  | resolved
  | rejected
deriving DecidableEq

/-! ## JavaScript numbers -/

/-- A JavaScript Number: `NaN`, the two infinities, or a finite value. The
finite values are the rationals that binary64 holds; the sign of zero is
not kept, since no operation modelled here tells `-0` from `0` in what it
finally produces. -/
inductive JsNumber where
  | nan
  | posInf
  | negInf
  | finite (value : ℚ)
deriving DecidableEq

/-- The exponent of the spacing of binary64 around `x`: `2 ^ quantumExp x`
is the distance between neighbouring doubles in the binade of `x`, with the
fixed spacing `2 ^ (-1074)` of the subnormal range at the bottom. -/
def quantumExp (x : ℚ) : ℤ :=
  max (Int.log 2 |x|) (-1022) - 52

/-- The integer nearest to `m`, the even one of two equally near. -/
def roundHalfEven (m : ℚ) : ℤ :=
  if m - ⌊m⌋ < 1 / 2 then ⌊m⌋
  else if 1 / 2 < m - ⌊m⌋ then ⌊m⌋ + 1
  else if ⌊m⌋ % 2 = 0 then ⌊m⌋ else ⌊m⌋ + 1

/-- Rounding to nearest, ties to even, with 53 significant bits and an
unbounded exponent above. -/
def roundNearest (x : ℚ) : ℚ :=
  roundHalfEven (x / 2 ^ quantumExp x) * 2 ^ quantumExp x

/-- The Number that an arithmetic operation returns for the exact result
`x`: the nearest double, or an infinity when that lies beyond the largest
finite double. -/
def toNumber (x : ℚ) : JsNumber :=
  if (2 : ℚ) ^ (1024 : ℕ) ≤ roundNearest x then JsNumber.posInf
  else if roundNearest x ≤ -(2 : ℚ) ^ (1024 : ℕ) then JsNumber.negInf
  else JsNumber.finite (roundNearest x)

/-- The rational `x` is a finite double: rounding gives it back. -/
def IsDouble (x : ℚ) : Prop :=
  toNumber x = JsNumber.finite x

instance (x : ℚ) : Decidable (IsDouble x) := by
  unfold IsDouble
  exact inferInstance

namespace JsNumber

/-- The infinity of the given sign. -/
def infinity (negative : Bool) : JsNumber :=
  if negative then negInf else posInf

/-- `!x`: a Number is falsy when it is `NaN` or zero. -/
def falsy : JsNumber → Bool
  | nan => true
  | finite value => decide (value = 0)
  | _ => false

/-- `isNaN(x)`. -/
def isNaN : JsNumber → Bool
  | nan => true
  | _ => false

/-- `x * y`. -/
def mul : JsNumber → JsNumber → JsNumber
  | nan, _ => nan
  | _, nan => nan
  | posInf, posInf => posInf
  | posInf, negInf => negInf
  | negInf, posInf => negInf
  | negInf, negInf => posInf
  | posInf, finite y => if y = 0 then nan else infinity (decide (y < 0))
  | negInf, finite y => if y = 0 then nan else infinity (decide (0 < y))
  | finite x, posInf => if x = 0 then nan else infinity (decide (x < 0))
  | finite x, negInf => if x = 0 then nan else infinity (decide (0 < x))
  | finite x, finite y => toNumber (x * y)

/-- `x / y`. A zero divisor counts as `+0`. -/
def div : JsNumber → JsNumber → JsNumber
  | nan, _ => nan
  | _, nan => nan
  | posInf, posInf => nan
  | posInf, negInf => nan
  | negInf, posInf => nan
  | negInf, negInf => nan
  | posInf, finite y => infinity (decide (y < 0))
  | negInf, finite y => infinity (decide (0 ≤ y))
  | finite _, posInf => finite 0
  | finite _, negInf => finite 0
  | finite x, finite y =>
    if y = 0 then
      if x = 0 then nan else infinity (decide (x < 0))
    else toNumber (x / y)

/-- `x % y`: the remainder of the division truncated towards zero, which
is exact; `NaN` for an infinite `x` or a zero `y`, `x` for an infinite `y`. -/
def rem : JsNumber → JsNumber → JsNumber
  | nan, _ => nan
  | _, nan => nan
  | posInf, _ => nan
  | negInf, _ => nan
  | finite x, posInf => finite x
  | finite x, negInf => finite x
  | finite x, finite y =>
    if y = 0 then nan
    else finite (x - y * (if 0 ≤ x / y then ⌊x / y⌋ else ⌈x / y⌉))

/-- `Math.floor(x)`. -/
def floor : JsNumber → JsNumber
  | finite x => finite ⌊x⌋
  | x => x

/-- `x < y`. -/
def lt : JsNumber → JsNumber → Bool
  | nan, _ => false
  | _, nan => false
  | posInf, _ => false
  | negInf, negInf => false
  | negInf, _ => true
  | finite _, posInf => true
  | finite _, negInf => false
  | finite x, finite y => decide (x < y)

end JsNumber

/-! ## Number to string -/

/-- The digits `s` of `k` places, if any, for which `s * 10 ^ (d - k)`
reads back as the double `x`; of the two neighbours of `x` on that grid
the nearer one, the even one when both are as near. -/
def digitsOfLength (x : ℚ) (d : ℤ) (k : ℕ) : Option ℕ :=
  let t : ℚ := 10 ^ (d - k)
  let lo := ⌊x / t⌋.toNat
  let hi := lo + 1
  let okLo := decide (toNumber (lo * t) = JsNumber.finite x)
  let okHi := decide (hi < 10 ^ k) && decide (toNumber (hi * t) = JsNumber.finite x)
  if okLo && okHi then
    if x - lo * t < hi * t - x then some lo
    else if hi * t - x < x - lo * t then some hi
    else if lo % 2 = 0 then some lo else some hi
  else if okLo then some lo
  else if okHi then some hi
  else none

/-- The shortest digits among lengths `k, k + 1, ..`, trying `fuel` lengths. -/
def shortestDigitsFrom (x : ℚ) (d : ℤ) : ℕ → ℕ → ℕ × ℕ
  | 0, k => (⌊x / 10 ^ (d - k)⌋.toNat, k)
  | fuel + 1, k =>
    match digitsOfLength x d k with
    | some s => (s, k)
    | none => shortestDigitsFrom x d fuel (k + 1)

/-- The integers `n`, `k`, `s` of `Number::toString` for a double `x > 0`:
`s` has `k` digits, `s * 10 ^ (n - k)` reads back as `x`, and `k` is as
small as possible (seventeen digits always suffice). -/
def shortestDecimal (x : ℚ) : ℤ × ℕ × ℕ :=
  let d := Int.log 10 x + 1
  if toNumber (10 ^ d) = JsNumber.finite x then (d + 1, 1, 1)
  else
    let r := shortestDigitsFrom x d 17 1
    (d, r.2, r.1)

/-- The text of a double `x > 0` from its shortest digits: plain digits up
to 21 places before the point, up to 6 zeros after it, exponent notation
beyond. -/
def positiveToString (x : ℚ) : String :=
  let r := shortestDecimal x
  let n := r.1
  let k : ℤ := r.2.1
  let digits := (toString r.2.2).data
  if k ≤ n ∧ n ≤ 21 then
    String.mk (digits ++ List.replicate (n - k).toNat '0')
  else if 0 < n ∧ n ≤ 21 then
    String.mk (digits.take n.toNat ++ '.' :: digits.drop n.toNat)
  else if -6 < n ∧ n ≤ 0 then
    String.mk ('0' :: '.' :: List.replicate (-n).toNat '0' ++ digits)
  else
    let e := n - 1
    let exponent := (if e < 0 then "-" else "+") ++ toString e.natAbs
    if k = 1 then String.mk digits ++ "e" ++ exponent
    else String.mk (digits.take 1 ++ '.' :: digits.drop 1) ++ "e" ++ exponent

/-- `Number::toString`, the conversion a template string applies. A whole
number below `2 ^ 53` in size is held exactly and written with all its
digits; any other finite value is written from its shortest digits. -/
def numberToString : JsNumber → String
  | JsNumber.nan => "NaN"
  | JsNumber.posInf => "Infinity"
  | JsNumber.negInf => "-Infinity"
  | JsNumber.finite x =>
    if x = ⌊x⌋ ∧ |x| < 2 ^ (53 : ℕ) then toString ⌊x⌋
    else if x < 0 then "-" ++ positiveToString (-x)
    else positiveToString x

/-! ## The controller -/

/-- The attributes of the `<audio>` element the controller reads or writes.
`src = some id` stands for the URL `/api/songs/{id}/play`, `none` for the
empty source; `duration` is `NaN` until the metadata of a resource is
known and can be infinite for a stream of unknown length. -/
structure AudioPlayer where
  src : Option Nat
  paused : Bool
  currentTime : ℚ
  duration : JsNumber
deriving DecidableEq

/-- The calls and assignments the controller makes on the `<audio>` element. -/
inductive AudioCall where
  | setSrc (songId : Nat)
  | play
  | pause
  | setCurrentTime (t : ℚ)
deriving DecidableEq

/-- The controller: the fields set by the constructor, the two now-playing
text nodes, the sort selector, the `<audio>` element, and the trace of what
the controller has sent out (requests, notifications, calls on the audio
element). -/
structure State where
  currentSongIndex : Int
  isPlaying : Bool
  isShuffled : Bool
  isRepeated : Bool
  currentPlaylist : String
  songs : List Song
  playlists : List Playlist
  filteredSongs : List Song
  currentSongForPlaylist : Option Nat
  currentVolume : Nat
  currentSongTitle : String
  currentSongArtist : String
  sortSelect : String
  audioPlayer : AudioPlayer
  audioCalls : List AudioCall
  requests : List Request
  notifications : List Notification
deriving DecidableEq

/-- The state built by `constructor()`. The two now-playing texts and the
selected sort key come from the page, so they are arguments. -/
def State.initial (title artist sortBy : String) : State where
  currentSongIndex := 0
  isPlaying := false
  isShuffled := false
  isRepeated := false
  currentPlaylist := "all"
  songs := []
  playlists := []
  filteredSongs := []
  currentSongForPlaylist := none
  currentVolume := 80
  currentSongTitle := title
  currentSongArtist := artist
  sortSelect := sortBy
  audioPlayer := { src := none, paused := true, currentTime := 0, duration := JsNumber.nan }
  audioCalls := []
  requests := []
  notifications := []

/-! ## Helpers shared by the methods -/

/-- `showNotification(message, type)`: the message replaces the text of the
notification element; the trace keeps them all, latest last. -/
def showNotification (s : State) (message : String) (type : NotificationType) : State :=
  { s with notifications := s.notifications ++ [{ message := message, type := type }] }

/-- A `fetch` call leaves the controller. -/
def sendRequest (s : State) (r : Request) : State :=
  { s with requests := s.requests ++ [r] }

/-- `filteredSongs[index]`: `none` is JavaScript's `undefined`, the value of
an index that is negative or not below the length. -/
def songAt (l : List Song) (index : Int) : Option Song :=
  if 0 ≤ index then l[index.toNat]? else none

/-- `audioPlayer.src = url`. The element starts loading the new resource:
it goes back to paused, position 0 and unknown duration. -/
def setSrc (s : State) (songId : Nat) : State :=
  { s with
    audioPlayer :=
      { src := some songId, paused := true, currentTime := 0, duration := JsNumber.nan }
    audioCalls := s.audioCalls ++ [AudioCall.setSrc songId] }

/-- `audioPlayer.play()`: when the promise resolves the element is playing;
when it rejects the element is left as it was. -/
def audioPlay (s : State) (o : PlayOutcome) : State :=
  { s with
    audioPlayer :=
      { s.audioPlayer with
        paused := match o with
          | PlayOutcome.resolved => false
          | PlayOutcome.rejected => s.audioPlayer.paused }
    audioCalls := s.audioCalls ++ [AudioCall.play] }

/-- `audioPlayer.pause()`. -/
def audioPause (s : State) : State :=
  { s with
    audioPlayer := { s.audioPlayer with paused := true }
    audioCalls := s.audioCalls ++ [AudioCall.pause] }

/-- `audioPlayer.currentTime = t`. -/
def setCurrentTime (s : State) (t : ℚ) : State :=
  { s with
    audioPlayer := { s.audioPlayer with currentTime := t }
    audioCalls := s.audioCalls ++ [AudioCall.setCurrentTime t] }

/-- `updateNowPlaying(song)`, restricted to the two text nodes that the
controller reads back (`deleteSong` compares the title). -/
def updateNowPlaying (s : State) (song : Song) : State :=
  { s with
    currentSongTitle := song.title
    currentSongArtist := if song.artist = "" then "Unknown Artist" else song.artist }

/-! ## Playback -/

/-- `playSong(index)`. `post` is the result of the play-count `fetch`,
`play` the settlement of `audioPlayer.play()`. With `filteredSongs[index]`
undefined, `song.title` throws inside the `try` and the `catch` reports it;
a rejected `fetch` ends in the same `catch`, before `play()` is reached. -/
def playSong (s : State) (index : Int) (post : Fetch Unit) (play : PlayOutcome) : State :=
  if s.filteredSongs.length = 0 then s
  else
    let s1 := { s with currentSongIndex := index }
    match songAt s1.filteredSongs index with
    | none => showNotification s1 "Failed to play song" NotificationType.error
    | some song =>
      let s2 := updateNowPlaying s1 song
      let s3 := setSrc s2 song.id
      let s4 := sendRequest s3 (Request.postPlay song.id)
      match post with
      | Fetch.networkError => showNotification s4 "Failed to play song" NotificationType.error
      | _ =>
        let s5 := audioPlay s4 play
        match play with
        | PlayOutcome.resolved => { s5 with isPlaying := true }
        | PlayOutcome.rejected =>
          showNotification s5 "Failed to play song" NotificationType.error

/-- `togglePlayPause()`. -/
def togglePlayPause (s : State) (post : Fetch Unit) (play : PlayOutcome) : State :=
  if s.filteredSongs.length = 0 then s
  else if s.audioPlayer.paused then
    if s.audioPlayer.src = none then playSong s 0 post play
    else
      let s1 := audioPlay s play
      match play with
      | PlayOutcome.resolved => { s1 with isPlaying := true }
      | PlayOutcome.rejected =>
        showNotification s1 "Failed to play song" NotificationType.error
  else
    { audioPause s with isPlaying := false }

/-- `playPrevious()`. -/
def playPrevious (s : State) (post : Fetch Unit) (play : PlayOutcome) : State :=
  if s.filteredSongs.length = 0 then s
  else
    let s1 := { s with currentSongIndex := s.currentSongIndex - 1 }
    let s2 :=
      if s1.currentSongIndex < 0 then
        { s1 with currentSongIndex := (s1.filteredSongs.length : Int) - 1 }
      else s1
    playSong s2 s2.currentSongIndex post play

/-- `playNext()`. `r` is the double returned by `Math.random()`. The
product `r * length` is rounded to a double before `Math.floor` is taken;
with `r` below 1 and the length of an array below `2 ^ 32` it is far from
overflow. -/
def playNext (s : State) (r : ℚ) (post : Fetch Unit) (play : PlayOutcome) : State :=
  if s.filteredSongs.length = 0 then s
  else
    let s2 :=
      if s.isShuffled then
        { s with currentSongIndex := ⌊roundNearest (r * (s.filteredSongs.length : ℚ))⌋ }
      else
        let s1 := { s with currentSongIndex := s.currentSongIndex + 1 }
        if s1.currentSongIndex ≥ (s1.filteredSongs.length : Int) then
          { s1 with currentSongIndex := 0 }
        else s1
    playSong s2 s2.currentSongIndex post play

/-- `toggleShuffle()`. -/
def toggleShuffle (s : State) : State :=
  let s1 := { s with isShuffled := !s.isShuffled }
  showNotification s1 (if s1.isShuffled then "Shuffle enabled" else "Shuffle disabled")
    NotificationType.success

/-- `toggleRepeat()`. -/
def toggleRepeat (s : State) : State :=
  let s1 := { s with isRepeated := !s.isRepeated }
  showNotification s1 (if s1.isRepeated then "Repeat enabled" else "Repeat disabled")
    NotificationType.success

/-- `onSongEnded()`. In the repeat branch the promise of `play()` is dropped. -/
def onSongEnded (s : State) (r : ℚ) (post : Fetch Unit) (play : PlayOutcome) : State :=
  if s.isRepeated then audioPlay (setCurrentTime s 0) play
  else playNext s r post play

/-- `handleAudioError(e)`. -/
def handleAudioError (s : State) : State :=
  showNotification s "Error playing audio file" NotificationType.error

/-! ## Library and views -/

/-- `loadLibraryStats()`: the answer only feeds the statistics display. -/
def loadLibraryStats (s : State) (_resp : Fetch Unit) : State :=
  sendRequest s Request.getStats

/-- `loadPlaylists()`. -/
def loadPlaylists (s : State) (resp : Fetch (List Playlist)) : State :=
  let s1 := sendRequest s Request.getPlaylists
  match resp with
  | Fetch.ok body => { s1 with playlists := body }
  | Fetch.fail _ => s1
  | Fetch.networkError => showNotification s1 "Failed to load playlists" NotificationType.error

/-- `loadSongs()`. -/
def loadSongs (s : State) (resp : Fetch (List Song)) : State :=
  let s1 := sendRequest s (Request.getSongs s.sortSelect)
  match resp with
  | Fetch.ok body => { s1 with songs := body, filteredSongs := body }
  | Fetch.fail _ => s1
  | Fetch.networkError => showNotification s1 "Failed to load songs" NotificationType.error

/-- `loadPlaylistSongs(playlistId)`. The body is the `songs` field of the
returned playlist, `none` when the field is missing (`playlist.songs || []`). -/
def loadPlaylistSongs (s : State) (playlistId : String)
    (resp : Fetch (Option (List Song))) : State :=
  let s1 := sendRequest s (Request.getPlaylist playlistId)
  match resp with
  | Fetch.ok body => { s1 with filteredSongs := body.getD [] }
  | Fetch.fail _ => s1
  | Fetch.networkError =>
    showNotification s1 "Failed to load playlist songs" NotificationType.error

/-- `switchPlaylist(playlistId)`. `songsResp` answers the `loadSongs` of the
`'all'` branch, `playlistResp` the `loadPlaylistSongs` of the other one. -/
def switchPlaylist (s : State) (playlistId : String) (songsResp : Fetch (List Song))
    (playlistResp : Fetch (Option (List Song))) : State :=
  let s1 := { s with currentPlaylist := playlistId }
  if playlistId = "all" then loadSongs s1 songsResp
  else
    match s1.playlists.find? (fun p => toString p.id == playlistId) with
    | some _ => loadPlaylistSongs s1 playlistId playlistResp
    | none => s1

/-- `searchSongs()`. `query` is `searchBox.value.trim()`. -/
def searchSongs (s : State) (query : String) (songsResp : Fetch (List Song))
    (playlistResp : Fetch (Option (List Song))) (searchResp : Fetch (List Song)) : State :=
  if query = "" then
    if s.currentPlaylist = "all" then loadSongs s songsResp
    else loadPlaylistSongs s s.currentPlaylist playlistResp
  else
    let s1 := sendRequest s (Request.getSearch query)
    match searchResp with
    | Fetch.ok body => { s1 with filteredSongs := body }
    | Fetch.fail _ => s1
    | Fetch.networkError => showNotification s1 "Failed to search songs" NotificationType.error

/-- The three answers a `refreshLibrary()` receives. -/
structure RefreshEnv where
  stats : Fetch Unit
  playlists : Fetch (List Playlist)
  songs : Fetch (List Song)
deriving DecidableEq

/-- `refreshLibrary()`: the three loads of the `Promise.all`, which write
disjoint fields, taken in the order they are listed. -/
def refreshLibrary (s : State) (env : RefreshEnv) : State :=
  loadSongs (loadPlaylists (loadLibraryStats s env.stats) env.playlists) env.songs

/-- `addSongToPlaylist(playlistId, songId)`. The flag says whether the call
threw (the `catch` rethrows a rejected `fetch`). -/
def addSongToPlaylist (s : State) (playlistId : String) (songId : Nat)
    (resp : Fetch Unit) : State × Bool :=
  let s1 := sendRequest s (Request.postPlaylistSong playlistId songId)
  match resp with
  | Fetch.ok _ =>
    let name :=
      match s1.playlists.find? (fun p => toString p.id == playlistId) with
      | some p => if p.name = "" then "playlist" else p.name
      | none => "playlist"
    (showNotification s1 ("Song added to \"" ++ name ++ "\"") NotificationType.success, false)
  | Fetch.fail error => (showNotification s1 error NotificationType.error, false)
  | Fetch.networkError => (s1, true)

/-! ## Upload -/

/-- The value `response.json()` gives for an answer with `ok` true: `null`,
or a value whose property `song_id` can be read, `none` when it is absent. -/
inductive UploadBody where
  | null
  | record (song_id : Option Nat)
deriving DecidableEq

/-- One entry of `fileInput.files` with what the service answers for it:
`response` is the answer to the upload (`ok` carries `result`, `fail`
carries `result.error`, the empty string when absent, and `networkError`
is a rejected `fetch`, an unreadable body, or an error status with the body
`null`); `add` is the answer to the add-to-playlist request, used when that
request is sent. -/
structure UploadFile where
  name : String
  response : Fetch UploadBody
  add : Fetch Unit
deriving DecidableEq

/-- The variables of the upload loop. -/
structure UploadProgress where
  state : State
  uploadedCount : Nat
  errors : List String
deriving DecidableEq

/-- One iteration of the `for` loop of `handleUpload`. With `ok` true the
count goes up first; then, when a playlist is selected, `result.song_id` is
read: on the body `null` that throws a `TypeError`, outside the inner `try`,
and the outer `catch` records a network error for the file. A call of
`addSongToPlaylist` that throws is caught by the inner `try`. -/
def uploadStep (playlistId : String) (acc : UploadProgress) (file : UploadFile) :
    UploadProgress :=
  let s1 := sendRequest acc.state (Request.postUpload file.name)
  match file.response with
  | Fetch.ok result =>
    if playlistId = "" then
      { state := s1, uploadedCount := acc.uploadedCount + 1, errors := acc.errors }
    else
      match result with
      | UploadBody.null =>
        { state := s1, uploadedCount := acc.uploadedCount + 1,
          errors := acc.errors ++ [file.name ++ ": Network error"] }
      | UploadBody.record (some id) =>
        if id ≠ 0 then
          { state := (addSongToPlaylist s1 playlistId id file.add).1,
            uploadedCount := acc.uploadedCount + 1, errors := acc.errors }
        else { state := s1, uploadedCount := acc.uploadedCount + 1, errors := acc.errors }
      | UploadBody.record none =>
        { state := s1, uploadedCount := acc.uploadedCount + 1, errors := acc.errors }
  | Fetch.fail error =>
    { state := s1, uploadedCount := acc.uploadedCount,
      errors := acc.errors ++
        [file.name ++ ": " ++ (if error = "" then "Upload failed" else error)] }
  | Fetch.networkError =>
    { state := s1, uploadedCount := acc.uploadedCount,
      errors := acc.errors ++ [file.name ++ ": Network error"] }

/-- The `for` loop of `handleUpload`, from `uploadedCount = 0` and
`errors = []`. -/
def uploadLoop (s : State) (files : List UploadFile) (playlistId : String) : UploadProgress :=
  files.foldl (uploadStep playlistId) { state := s, uploadedCount := 0, errors := [] }

/-- The message shown at the end of `handleUpload`. -/
def uploadNotification (uploadedCount totalFiles : Nat) (errors : List String) : Notification :=
  if errors.length > 0 then
    let errorMsg := ", ".intercalate (errors.take 3)
    let more :=
      if errors.length > 3 then " and " ++ toString (errors.length - 3) ++ " more" else ""
    { message := "Uploaded " ++ toString uploadedCount ++ "/" ++ toString totalFiles ++
        " files. Errors: " ++ errorMsg ++ more
      type := NotificationType.warning }
  else
    { message := "Successfully uploaded " ++ toString uploadedCount ++ " file" ++
        (if uploadedCount ≠ 1 then "s" else "")
      type := NotificationType.success }

/-- `handleUpload(e)`. `files` is `fileInput.files`, `playlistId` is
`playlistSelect.value`. -/
def handleUpload (s : State) (files : List UploadFile) (playlistId : String)
    (refresh : RefreshEnv) : State :=
  if files.length = 0 then
    showNotification s "Please select at least one file" NotificationType.error
  else
    let p := uploadLoop s files playlistId
    let s1 := refreshLibrary p.state refresh
    let n := uploadNotification p.uploadedCount files.length p.errors
    showNotification s1 n.message n.type

/-! ## Playlists and deletion -/

/-- `handleCreatePlaylist(e)`. `name` and `description` are the two form
fields. -/
def handleCreatePlaylist (s : State) (name description : String) (resp : Fetch Unit)
    (refresh : RefreshEnv) : State :=
  if name = "" then showNotification s "Please enter a playlist name" NotificationType.error
  else
    let s1 := sendRequest s (Request.postPlaylist name description)
    match resp with
    | Fetch.ok _ =>
      showNotification (refreshLibrary s1 refresh)
        ("Playlist \"" ++ name ++ "\" created successfully") NotificationType.success
    | Fetch.fail error => showNotification s1 error NotificationType.error
    | Fetch.networkError =>
      showNotification s1 "Failed to create playlist" NotificationType.error

/-- `removeSongFromPlaylist(songId)`. `confirmed` is the answer to `confirm`. -/
def removeSongFromPlaylist (s : State) (songId : Nat) (confirmed : Bool) (resp : Fetch Unit)
    (playlistResp : Fetch (Option (List Song))) (playlistsResp : Fetch (List Playlist)) :
    State :=
  if !confirmed then s
  else
    let s1 := sendRequest s (Request.deletePlaylistSong s.currentPlaylist songId)
    match resp with
    | Fetch.ok _ =>
      let s2 := loadPlaylistSongs s1 s1.currentPlaylist playlistResp
      let s3 := showNotification s2 "Song removed from playlist" NotificationType.success
      loadPlaylists s3 playlistsResp
    | Fetch.fail error => showNotification s1 error NotificationType.error
    | Fetch.networkError =>
      showNotification s1 "Failed to remove song from playlist" NotificationType.error

/-- `deleteSong(songId)`. `confirmed` is the answer to `confirm`, `resp` the
answer to the `DELETE`, `refresh` the answers to the refresh that follows a
successful deletion. The deleted song is looked up in `songs` after that
refresh. -/
def deleteSong (s : State) (songId : Nat) (confirmed : Bool) (resp : Fetch Unit)
    (refresh : RefreshEnv) : State :=
  if !confirmed then s
  else
    let s1 := sendRequest s (Request.deleteSong songId)
    match resp with
    | Fetch.ok _ =>
      let s2 := refreshLibrary s1 refresh
      let s3 := showNotification s2 "Song deleted successfully" NotificationType.success
      match s3.songs.find? (fun x => x.id == songId) with
      | some deletedSong =>
        if s3.currentSongTitle = deletedSong.title then
          { audioPause s3 with
            isPlaying := false
            currentSongTitle := "No song selected"
            currentSongArtist := "Select a song to play" }
        else s3
      | none => s3
    | Fetch.fail error => showNotification s1 error NotificationType.error
    | Fetch.networkError => showNotification s1 "Failed to delete song" NotificationType.error

/-- `deletePlaylist(playlistId)`. `switchResp` answers the `loadSongs` of
`switchPlaylist('all')`, sent when the deleted playlist is the current one
(that call never reaches the playlist branch, so its playlist answer is
immaterial). -/
def deletePlaylist (s : State) (playlistId : Nat) (confirmed : Bool) (resp : Fetch Unit)
    (switchResp : Fetch (List Song)) (refresh : RefreshEnv) : State :=
  match s.playlists.find? (fun p => p.id == playlistId) with
  | none => s
  | some playlist =>
    if !confirmed then s
    else
      let s1 := sendRequest s (Request.deletePlaylist playlistId)
      match resp with
      | Fetch.ok _ =>
        let s2 :=
          if s1.currentPlaylist = toString playlistId then
            switchPlaylist s1 "all" switchResp Fetch.networkError
          else s1
        let s3 := refreshLibrary s2 refresh
        showNotification s3 ("Playlist \"" ++ playlist.name ++ "\" deleted")
          NotificationType.success
      | Fetch.fail error => showNotification s1 error NotificationType.error
      | Fetch.networkError =>
        showNotification s1 "Failed to delete playlist" NotificationType.error

/-! ## Reachable states and specification-side notions -/

/-- The states the controller can be in: the constructed one, and whatever
an event handler makes of a reachable state. A row of the song table calls
`playSong` with its own position in `filteredSongs` (the table is rebuilt
by `renderSongs` after every assignment to `filteredSongs`), and
`Math.random()` is a double in `[0, 1)`. -/
inductive Reachable : State → Prop where
  | initial (title artist sortBy : String) : Reachable (State.initial title artist sortBy)
  | loadLibraryStats {s : State} (resp : Fetch Unit) :
      Reachable s → Reachable (loadLibraryStats s resp)
  | loadPlaylists {s : State} (resp : Fetch (List Playlist)) :
      Reachable s → Reachable (loadPlaylists s resp)
  | loadSongs {s : State} (resp : Fetch (List Song)) :
      Reachable s → Reachable (loadSongs s resp)
  | playSong {s : State} (index : Nat) (post : Fetch Unit) (play : PlayOutcome) :
      Reachable s → index < s.filteredSongs.length →
      Reachable (playSong s (index : Int) post play)
  | togglePlayPause {s : State} (post : Fetch Unit) (play : PlayOutcome) :
      Reachable s → Reachable (togglePlayPause s post play)
  | playPrevious {s : State} (post : Fetch Unit) (play : PlayOutcome) :
      Reachable s → Reachable (playPrevious s post play)
  | playNext {s : State} (r : ℚ) (post : Fetch Unit) (play : PlayOutcome) :
      Reachable s → IsDouble r → 0 ≤ r → r < 1 → Reachable (playNext s r post play)
  | toggleShuffle {s : State} : Reachable s → Reachable (toggleShuffle s)
  | toggleRepeat {s : State} : Reachable s → Reachable (toggleRepeat s)
  | onSongEnded {s : State} (r : ℚ) (post : Fetch Unit) (play : PlayOutcome) :
      Reachable s → IsDouble r → 0 ≤ r → r < 1 → Reachable (onSongEnded s r post play)
  | handleAudioError {s : State} : Reachable s → Reachable (handleAudioError s)
  | switchPlaylist {s : State} (playlistId : String) (songsResp : Fetch (List Song))
      (playlistResp : Fetch (Option (List Song))) :
      Reachable s → Reachable (switchPlaylist s playlistId songsResp playlistResp)
  | searchSongs {s : State} (query : String) (songsResp : Fetch (List Song))
      (playlistResp : Fetch (Option (List Song))) (searchResp : Fetch (List Song)) :
      Reachable s → Reachable (searchSongs s query songsResp playlistResp searchResp)
  | refreshLibrary {s : State} (env : RefreshEnv) :
      Reachable s → Reachable (refreshLibrary s env)
  | handleUpload {s : State} (files : List UploadFile) (playlistId : String)
      (refresh : RefreshEnv) :
      Reachable s → Reachable (handleUpload s files playlistId refresh)
  | handleCreatePlaylist {s : State} (name description : String) (resp : Fetch Unit)
      (refresh : RefreshEnv) :
      Reachable s → Reachable (handleCreatePlaylist s name description resp refresh)
  | removeSongFromPlaylist {s : State} (songId : Nat) (confirmed : Bool) (resp : Fetch Unit)
      (playlistResp : Fetch (Option (List Song))) (playlistsResp : Fetch (List Playlist)) :
      Reachable s →
      Reachable (removeSongFromPlaylist s songId confirmed resp playlistResp playlistsResp)
  | deleteSong {s : State} (songId : Nat) (confirmed : Bool) (resp : Fetch Unit)
      (refresh : RefreshEnv) :
      Reachable s → Reachable (deleteSong s songId confirmed resp refresh)
  | deletePlaylist {s : State} (playlistId : Nat) (confirmed : Bool) (resp : Fetch Unit)
      (switchResp : Fetch (List Song)) (refresh : RefreshEnv) :
      Reachable s → Reachable (deletePlaylist s playlistId confirmed resp switchResp refresh)

/-- The playback cursor points at an element of the active view. -/
def InView (s : State) : Prop :=
  0 ≤ s.currentSongIndex ∧ s.currentSongIndex < (s.filteredSongs.length : Int)

instance (s : State) : Decidable (InView s) := by
  unfold InView
  exact inferInstance

/-- The entry that a file leaves in `errors`, `none` when it leaves no
entry: a file answered with an error status or not answered leaves one, and
so does a file answered with `ok` true and the body `null` while a playlist
is selected. -/
def uploadError (playlistId : String) (file : UploadFile) : Option String :=
  match file.response with
  | Fetch.ok result =>
    if playlistId ≠ "" ∧ result = UploadBody.null then some (file.name ++ ": Network error")
    else none
  | Fetch.fail error =>
    some (file.name ++ ": " ++ (if error = "" then "Upload failed" else error))
  | Fetch.networkError => some (file.name ++ ": Network error")

/-- The file name of an upload request, `none` for any other request. -/
def uploadedName : Request → Option String
  | Request.postUpload fileName => some fileName
  | _ => none

/-! ## Sample data -/

/-- A library of three songs, two of which share their title. -/
def sampleSongs : List Song :=
  [ { id := 1, title := "Intro", artist := "", album := "", duration := 95, play_count := 0 },
    { id := 2, title := "Intro", artist := "Band", album := "Live", duration := 120,
      play_count := 3 },
    { id := 3, title := "Outro", artist := "Band", album := "", duration := 61,
      play_count := 1 } ]

/-- The controller after start-up with `sampleSongs` in the library. -/
def sampleState : State :=
  loadSongs (State.initial "No song selected" "Select a song to play" "title")
    (Fetch.ok sampleSongs)

/-- The sample controller while the third song, `Outro`, is playing. -/
def playingOutro : State :=
  playSong sampleState 2 (Fetch.ok ()) PlayOutcome.resolved

/-- The sample controller while the first song, one of the two called
`Intro`, is playing. -/
def playingIntro : State :=
  playSong sampleState 0 (Fetch.ok ()) PlayOutcome.resolved

/-- While `Outro` plays at index 2, a search narrows the view to one song. -/
def staleState : State :=
  searchSongs playingOutro "Intro" Fetch.networkError Fetch.networkError
    (Fetch.ok (sampleSongs.take 1))

/-- A refresh in which the service answers every request, the song list
being `songs`. -/
def refreshOk (songs : List Song) : RefreshEnv :=
  { stats := Fetch.ok (), playlists := Fetch.ok [], songs := Fetch.ok songs }

/-- A refresh in which the song list request is answered with an error
status, so that the cached song list stays as it was. -/
def refreshSongsFail : RefreshEnv :=
  { stats := Fetch.ok (), playlists := Fetch.ok [], songs := Fetch.fail "unavailable" }

/-- The file was uploaded: the answer to its upload request has `ok` true. -/
def UploadFile.succeeded (file : UploadFile) : Bool :=
  match file.response with
  | Fetch.ok _ => true
  | _ => false

/-- The file is counted as uploaded and also leaves an entry in `errors`:
it was answered with `ok` true and the body `null` while a playlist is
selected. -/
def UploadFile.countedTwice (playlistId : String) (file : UploadFile) : Bool :=
  match file.response with
  | Fetch.ok result => decide (playlistId ≠ "" ∧ result = UploadBody.null)
  | _ => false

/-- Three files of which the second is refused by the service. -/
def sampleFiles : List UploadFile :=
  [ { name := "one.mp3", response := Fetch.ok (UploadBody.record (some 4)), add := Fetch.ok () },
    { name := "two.mp3", response := Fetch.fail "", add := Fetch.ok () },
    { name := "three.mp3", response := Fetch.ok (UploadBody.record (some 5)),
      add := Fetch.ok () } ]

/-- One file, answered with status 200 and the JSON body `null`. -/
def nullBodyFiles : List UploadFile :=
  [ { name := "a.mp3", response := Fetch.ok UploadBody.null, add := Fetch.ok () } ]

/-! ## Seeking and time display -/

/-- `seekSong(e)`. `clientX` is the pointer position, `left` and `width`
come from `progressBar.getBoundingClientRect()`; all three are finite
doubles. Nothing happens while the duration is `NaN` or 0. Each operation
rounds to a double. The assignment to `currentTime` accepts finite values
only: for an infinite value or `NaN` (a bar of width 0, an infinite
duration) it throws a `TypeError` and the position stays as it is. -/
def seekSong (s : State) (clientX left width : ℚ) : State :=
  if s.audioPlayer.duration.falsy then s
  else
    let percent := (toNumber (clientX - left)).div (JsNumber.finite width)
    match percent.mul s.audioPlayer.duration with
    | JsNumber.finite position => setCurrentTime s position
    | _ => s

/-- `formatTime(seconds)`. -/
def formatTime (seconds : JsNumber) : String :=
  if seconds.isNaN then "0:00"
  else
    let mins := (seconds.div (JsNumber.finite 60)).floor
    let secs := (seconds.rem (JsNumber.finite 60)).floor
    numberToString mins ++ ":" ++ (if secs.lt (JsNumber.finite 10) then "0" else "") ++
      numberToString secs

/-- The number a list of decimal digits stands for, read from the left. -/
def digitsValue (l : List Char) : Nat :=
  l.foldl (fun acc c => 10 * acc + (c.toNat - 48)) 0

/-- The playlists of the sample service. -/
def samplePlaylists : List Playlist :=
  [ { id := 7, name := "Mix", song_count := 1 } ]

/-- The sample controller showing playlist 7, whose only member is `Outro`. -/
def playlistView : State :=
  switchPlaylist (loadPlaylists sampleState (Fetch.ok samplePlaylists)) "7" Fetch.networkError
    (Fetch.ok (some (sampleSongs.drop 2)))

/-- A refresh in which the service answers every request, with the sample
playlists and the whole sample library. -/
def refreshAllOk : RefreshEnv :=
  { stats := Fetch.ok (), playlists := Fetch.ok samplePlaylists, songs := Fetch.ok sampleSongs }

/-- A number below 100 written with two decimal digits, a leading `0` when
it is below 10. -/
def twoDigits (k : Nat) : String :=
  (if k < 10 then "0" else "") ++ toString k

/-- The double nearest to one third, printed `0.3333333333333333`. -/
def drawThird : ℚ :=
  6004799503160661 / 18014398509481984

/-- The sample state once the metadata of the stream has given the
duration. -/
def withDuration (duration : ℚ) : State :=
  { sampleState with
    audioPlayer :=
      { src := some 1, paused := false, currentTime := 7, duration := JsNumber.finite duration } }

end MusicLibrary

/-! ## Facts about `playSong` -/

namespace MusicLibrary

theorem songAt_isSome_iff (l : List Song) (index : Int) :
    (∃ song, songAt l index = some song) ↔ 0 ≤ index ∧ index < (l.length : Int) := by
  unfold songAt
  constructor
  · rintro ⟨song, h⟩
    split at h
    · rename_i h0
      obtain ⟨hlt, -⟩ := List.getElem?_eq_some.mp h
      exact ⟨h0, by omega⟩
    · cases h
  · rintro ⟨h0, hN⟩
    have hlt : index.toNat < l.length := by omega
    exact ⟨l[index.toNat], by simp [h0, List.getElem?_eq_getElem hlt]⟩

theorem songAt_eq_none_iff (l : List Song) (index : Int) :
    songAt l index = none ↔ ¬ (0 ≤ index ∧ index < (l.length : Int)) := by
  rw [← songAt_isSome_iff]
  cases songAt l index <;> simp

theorem playSong_filteredSongs (s : State) (index : Int) (post : Fetch Unit)
    (play : PlayOutcome) :
    (playSong s index post play).filteredSongs = s.filteredSongs := by
  unfold playSong
  split
  · rfl
  · dsimp only
    split
    · rfl
    · split
      · rfl
      · cases play <;> rfl

theorem playSong_currentSongIndex (s : State) (index : Int) (post : Fetch Unit)
    (play : PlayOutcome) (hne : s.filteredSongs ≠ []) :
    (playSong s index post play).currentSongIndex = index := by
  have hlen : ¬ s.filteredSongs.length = 0 := by simpa using hne
  unfold playSong
  rw [if_neg hlen]
  dsimp only
  split
  · rfl
  · split
    · rfl
    · cases play <;> rfl

/-- What `playSong` does with an index that addresses a song. -/
theorem playSong_of_songAt (s : State) (index : Int) (post : Fetch Unit) (play : PlayOutcome)
    (song : Song) (h : songAt s.filteredSongs index = some song) :
    (playSong s index post play).currentSongIndex = index ∧
    (playSong s index post play).currentSongTitle = song.title ∧
    (playSong s index post play).audioPlayer.src = some song.id ∧
    (playSong s index post play).requests = s.requests ++ [Request.postPlay song.id] ∧
    (playSong s index post play).audioCalls =
      s.audioCalls ++ AudioCall.setSrc song.id ::
        (if post = Fetch.networkError then [] else [AudioCall.play]) := by
  have hlen : ¬ s.filteredSongs.length = 0 := by
    intro h0
    have : s.filteredSongs = [] := List.length_eq_zero.mp h0
    simp [this, songAt] at h
  unfold playSong
  rw [if_neg hlen]
  simp only [h]
  cases post <;> cases play <;>
    simp [showNotification, audioPlay, sendRequest, setSrc, updateNowPlaying]

end MusicLibrary

namespace MusicLibrary

/-! ## Rounding to the nearest double -/

theorem two_zpow_pos (z : ℤ) : (0 : ℚ) < 2 ^ z :=
  zpow_pos (by norm_num) z

theorem two_zpow_log_le {x : ℚ} (hx : 0 < x) : (2 : ℚ) ^ Int.log 2 x ≤ x := by
  simpa using Int.zpow_log_le_self (R := ℚ) (b := 2) (by norm_num) hx

theorem lt_two_zpow_log_succ (x : ℚ) : x < (2 : ℚ) ^ (Int.log 2 x + 1) := by
  simpa using Int.lt_zpow_succ_log_self (R := ℚ) (b := 2) (by norm_num) x

theorem log_lt_of_lt_two_zpow {x : ℚ} {e : ℤ} (hx : 0 < x) (h : x < 2 ^ e) :
    Int.log 2 x < e :=
  (Int.lt_zpow_iff_log_lt (R := ℚ) (b := 2) (by norm_num) hx).mp (by simpa using h)

theorem le_log_of_two_zpow_le {x : ℚ} {e : ℤ} (hx : 0 < x) (h : 2 ^ e ≤ x) :
    e ≤ Int.log 2 x :=
  (Int.zpow_le_iff_le_log (R := ℚ) (b := 2) (by norm_num) hx).mp (by simpa using h)

/-- The binade of `x` pins the logarithm. -/
theorem log_eq_of_binade {x : ℚ} {e : ℤ} (h1 : 2 ^ e ≤ x) (h2 : x < 2 ^ (e + 1)) :
    Int.log 2 x = e := by
  have hx : 0 < x := lt_of_lt_of_le (two_zpow_pos e) h1
  have ha := le_log_of_two_zpow_le hx h1
  have hb := log_lt_of_lt_two_zpow hx h2
  omega

theorem roundHalfEven_ge_floor (m : ℚ) : ⌊m⌋ ≤ roundHalfEven m := by
  unfold roundHalfEven
  split_ifs <;> omega

theorem roundHalfEven_le_of_le (m : ℚ) (M : ℤ) (h : m ≤ M) : roundHalfEven m ≤ M := by
  have hfl : ⌊m⌋ ≤ M := by
    have := Int.floor_le m
    exact_mod_cast (le_trans this h)
  have hstrict : (1 : ℚ) / 2 ≤ m - ⌊m⌋ → ⌊m⌋ + 1 ≤ M := by
    intro hfrac
    have h1 : ((⌊m⌋ : ℤ) : ℚ) < M := by linarith
    have h2 : ⌊m⌋ < M := by exact_mod_cast h1
    omega
  unfold roundHalfEven
  split_ifs with h1 h2 h3
  · exact hfl
  · exact hstrict (le_of_lt h2)
  · exact hfl
  · exact hstrict (not_lt.mp h1)

theorem roundHalfEven_ge_of_ge (m : ℚ) (M : ℤ) (h : (M : ℚ) ≤ m) : M ≤ roundHalfEven m :=
  le_trans (Int.le_floor.mpr h) (roundHalfEven_ge_floor m)

theorem roundHalfEven_lt_of_lt (m : ℚ) (M : ℤ) (h : m < M - 1 / 2) : roundHalfEven m < M := by
  have hfl : ⌊m⌋ < M := by
    have := Int.floor_le m
    have h1 : ((⌊m⌋ : ℤ) : ℚ) < M := by linarith
    exact_mod_cast h1
  have hup : (1 : ℚ) / 2 ≤ m - ⌊m⌋ → ⌊m⌋ + 1 < M := by
    intro hfrac
    have h1 : ((⌊m⌋ : ℤ) : ℚ) < M - 1 := by linarith
    have h2 : ((⌊m⌋ : ℤ) : ℚ) < ((M - 1 : ℤ) : ℚ) := by push_cast; exact h1
    have h3 : ⌊m⌋ < M - 1 := by exact_mod_cast h2
    omega
  unfold roundHalfEven
  split_ifs with h1 h2 h3
  · exact hfl
  · exact hup (le_of_lt h2)
  · exact hfl
  · exact hup (not_lt.mp h1)

theorem roundHalfEven_gt_of_gt (m : ℚ) (M : ℤ) (h : (M : ℚ) + 1 / 2 < m) :
    M < roundHalfEven m := by
  have hlt := Int.lt_floor_add_one m
  have hfl : M ≤ ⌊m⌋ := Int.le_floor.mpr (by linarith)
  have hup : m - ⌊m⌋ ≤ 1 / 2 → M < ⌊m⌋ := by
    intro hfrac
    have h1 : (M : ℚ) < ⌊m⌋ := by linarith
    exact_mod_cast h1
  unfold roundHalfEven
  split_ifs with h1 h2 h3
  · exact hup (le_of_lt h1)
  · omega
  · exact hup (not_lt.mp h2)
  · omega

theorem roundHalfEven_eq_of_near (m : ℚ) (k : ℤ) (h1 : (k : ℚ) - 1 / 2 < m)
    (h2 : m < k + 1 / 2) : roundHalfEven m = k := by
  have ha : roundHalfEven m < k + 1 := roundHalfEven_lt_of_lt m (k + 1) (by push_cast; linarith)
  have hb : k - 1 < roundHalfEven m := roundHalfEven_gt_of_gt m (k - 1) (by push_cast; linarith)
  omega

theorem roundHalfEven_intCast (M : ℤ) : roundHalfEven (M : ℚ) = M :=
  roundHalfEven_eq_of_near _ M (by linarith) (by linarith)

theorem roundHalfEven_tie (k : ℤ) :
    roundHalfEven ((k : ℚ) + 1 / 2) = if k % 2 = 0 then k else k + 1 := by
  have hfloor : ⌊(k : ℚ) + 1 / 2⌋ = k := by
    rw [Int.floor_eq_iff]
    constructor <;> linarith
  unfold roundHalfEven
  rw [hfloor]
  have h1 : ¬ ((k : ℚ) + 1 / 2 - k < 1 / 2) := by
    intro h; linarith
  have h2 : ¬ ((1 : ℚ) / 2 < (k : ℚ) + 1 / 2 - k) := by
    intro h; linarith
  rw [if_neg h1, if_neg h2]

theorem roundHalfEven_le_add_half (m : ℚ) : (roundHalfEven m : ℚ) ≤ m + 1 / 2 := by
  have := Int.floor_le m
  unfold roundHalfEven
  split_ifs with h1 h2 h3 <;> push_cast <;> linarith

theorem roundHalfEven_ge_sub_half (m : ℚ) : m - 1 / 2 ≤ (roundHalfEven m : ℚ) := by
  have := Int.floor_le m
  have := Int.lt_floor_add_one m
  unfold roundHalfEven
  split_ifs with h1 h2 h3 <;> push_cast <;> linarith

theorem roundNearest_le (x : ℚ) (M : ℤ) (h : x ≤ M * 2 ^ quantumExp x) :
    roundNearest x ≤ M * 2 ^ quantumExp x := by
  have hq := two_zpow_pos (quantumExp x)
  have hm : x / 2 ^ quantumExp x ≤ M := (div_le_iff₀ hq).mpr h
  have hr := roundHalfEven_le_of_le _ M hm
  unfold roundNearest
  have hr2 : (roundHalfEven (x / 2 ^ quantumExp x) : ℚ) ≤ M := by exact_mod_cast hr
  exact mul_le_mul_of_nonneg_right hr2 hq.le

theorem roundNearest_ge (x : ℚ) (M : ℤ) (h : M * 2 ^ quantumExp x ≤ x) :
    M * 2 ^ quantumExp x ≤ roundNearest x := by
  have hq := two_zpow_pos (quantumExp x)
  have hm : (M : ℚ) ≤ x / 2 ^ quantumExp x := (le_div_iff₀ hq).mpr h
  have hr := roundHalfEven_ge_of_ge _ M hm
  unfold roundNearest
  have hr2 : (M : ℚ) ≤ (roundHalfEven (x / 2 ^ quantumExp x) : ℚ) := by exact_mod_cast hr
  exact mul_le_mul_of_nonneg_right hr2 hq.le

theorem roundNearest_lt (x : ℚ) (M : ℤ) (h : x < (M - 1 / 2) * 2 ^ quantumExp x) :
    roundNearest x < M * 2 ^ quantumExp x := by
  have hq := two_zpow_pos (quantumExp x)
  have hm : x / 2 ^ quantumExp x < M - 1 / 2 := (div_lt_iff₀ hq).mpr h
  have hr := roundHalfEven_lt_of_lt _ M hm
  unfold roundNearest
  have hr2 : (roundHalfEven (x / 2 ^ quantumExp x) : ℚ) < M := by exact_mod_cast hr
  exact mul_lt_mul_of_pos_right hr2 hq

theorem roundNearest_nonneg (x : ℚ) (h : 0 ≤ x) : 0 ≤ roundNearest x := by
  have := roundNearest_ge x 0 (by simpa using h)
  simpa using this

theorem roundNearest_le_add (x : ℚ) : roundNearest x ≤ x + 2 ^ quantumExp x / 2 := by
  have hq := two_zpow_pos (quantumExp x)
  have h := roundHalfEven_le_add_half (x / 2 ^ quantumExp x)
  unfold roundNearest
  have h2 := mul_le_mul_of_nonneg_right h hq.le
  have h3 : (x / 2 ^ quantumExp x + 1 / 2) * 2 ^ quantumExp x = x + 2 ^ quantumExp x / 2 := by
    field_simp
    ring
  rw [h3] at h2
  exact h2

theorem roundNearest_of_multiple (x : ℚ) (M : ℤ) (h : x = M * 2 ^ quantumExp x) :
    roundNearest x = x := by
  have hq := two_zpow_pos (quantumExp x)
  have hm : x / 2 ^ quantumExp x = M := by
    rw [div_eq_iff hq.ne']
    exact h
  unfold roundNearest
  rw [hm, roundHalfEven_intCast]
  exact h.symm

theorem roundNearest_zero : roundNearest 0 = 0 :=
  roundNearest_of_multiple 0 0 (by simp)

/-! ## The spacing of doubles -/

theorem quantumExp_zero : quantumExp 0 = -52 := by
  unfold quantumExp
  simp [Int.log_zero_right]

theorem quantumExp_of_binade {x : ℚ} {e : ℤ} (h1 : 2 ^ e ≤ |x|) (h2 : |x| < 2 ^ (e + 1)) :
    quantumExp x = max e (-1022) - 52 := by
  unfold quantumExp
  rw [log_eq_of_binade h1 h2]

theorem quantumExp_le_of_lt {x : ℚ} {e : ℤ} (hx : x ≠ 0) (h : |x| < 2 ^ e) (he : -1021 ≤ e) :
    quantumExp x ≤ e - 53 := by
  have hlog := log_lt_of_lt_two_zpow (abs_pos.mpr hx) h
  unfold quantumExp
  have : max (Int.log 2 |x|) (-1022) ≤ e - 1 := max_le (by omega) (by omega)
  omega

theorem quantumExp_mono {x y : ℚ} (hx : 0 < x) (h : x ≤ y) : quantumExp x ≤ quantumExp y := by
  unfold quantumExp
  rw [abs_of_pos hx, abs_of_pos (lt_of_lt_of_le hx h)]
  have := Int.log_mono_right (b := 2) hx h
  have : max (Int.log 2 x) (-1022) ≤ max (Int.log 2 y) (-1022) := max_le_max this le_rfl
  omega

/-- The spacing is at most `2 ^ (-52)` times the magnitude, except in the
subnormal range where it is `2 ^ (-1074)`. -/
theorem two_zpow_quantumExp_le (x : ℚ) (hx : 0 < x) :
    (2 : ℚ) ^ quantumExp x ≤ x * 2 ^ (-52 : ℤ) + 2 ^ (-1074 : ℤ) := by
  have hlow := two_zpow_log_le hx
  unfold quantumExp
  rw [abs_of_pos hx]
  rcases le_total (Int.log 2 x) (-1022) with hle | hge
  · rw [max_eq_right hle]
    have h1 : (0 : ℚ) ≤ x * 2 ^ (-52 : ℤ) := mul_nonneg hx.le (two_zpow_pos _).le
    have h2 : (2 : ℚ) ^ ((-1022 : ℤ) - 52) = 2 ^ (-1074 : ℤ) := by norm_num
    rw [h2]
    linarith
  · rw [max_eq_left hge, sub_eq_add_neg, zpow_add₀ (by norm_num : (2 : ℚ) ≠ 0)]
    have h1 := mul_le_mul_of_nonneg_right hlow (two_zpow_pos (-52)).le
    have h2 := (two_zpow_pos (-1074)).le
    linarith

/-- A multiple of a coarser power of two is a multiple of a finer one. -/
theorem exists_mul_two_zpow (K : ℤ) {p q : ℤ} (h : q ≤ p) :
    ∃ M : ℤ, (K : ℚ) * 2 ^ p = M * 2 ^ q := by
  refine ⟨K * 2 ^ (p - q).toNat, ?_⟩
  have hp : p = q + ((p - q).toNat : ℤ) := by
    rw [Int.toNat_of_nonneg (by omega)]
    omega
  conv_lhs => rw [hp]
  rw [zpow_add₀ (by norm_num : (2 : ℚ) ≠ 0), zpow_natCast]
  push_cast
  ring

theorem exists_int_mul_two_zpow (Y : ℤ) {q : ℤ} (h : q ≤ 0) :
    ∃ M : ℤ, (Y : ℚ) = M * 2 ^ q := by
  obtain ⟨M, hM⟩ := exists_mul_two_zpow Y h
  exact ⟨M, by simpa using hM⟩

/-! ## Finite doubles -/

theorem isDouble_iff (x : ℚ) :
    IsDouble x ↔ roundNearest x = x ∧ |x| < 2 ^ (1024 : ℕ) := by
  unfold IsDouble toNumber
  constructor
  · intro h
    split_ifs at h with h1 h2
    have hx : roundNearest x = x := by
      injection h
    rw [hx] at h1 h2
    refine ⟨hx, abs_lt.mpr ⟨?_, ?_⟩⟩
    · exact lt_of_not_le h2
    · exact lt_of_not_le h1
  · rintro ⟨hx, hlt⟩
    obtain ⟨h1, h2⟩ := abs_lt.mp hlt
    rw [hx, if_neg (not_le.mpr h2), if_neg (not_le.mpr h1)]

theorem toNumber_of_bounds (x : ℚ) (h1 : roundNearest x < 2 ^ (1024 : ℕ))
    (h2 : -(2 : ℚ) ^ (1024 : ℕ) < roundNearest x) :
    toNumber x = JsNumber.finite (roundNearest x) := by
  unfold toNumber
  rw [if_neg (not_le.mpr h1), if_neg (not_le.mpr h2)]

theorem isDouble_zero : IsDouble 0 := by
  rw [isDouble_iff, roundNearest_zero]
  exact ⟨rfl, by norm_num⟩

/-- A double is a whole multiple of the spacing around it. -/
theorem IsDouble.eq_mul {x : ℚ} (h : IsDouble x) :
    ∃ K : ℤ, x = K * 2 ^ quantumExp x :=
  ⟨roundHalfEven (x / 2 ^ quantumExp x), ((isDouble_iff x).mp h).1.symm⟩

/-- Rounding does not pass a double that bounds the exact value. -/
theorem roundNearest_le_of_isDouble {x y : ℚ} (hx : 0 ≤ x) (h : x ≤ y) (hy : IsDouble y) :
    roundNearest x ≤ y := by
  rcases eq_or_lt_of_le hx with h0 | hpos
  · rw [← h0, roundNearest_zero]
    exact le_trans hx h
  · obtain ⟨K, hK⟩ := hy.eq_mul
    obtain ⟨M, hM⟩ := exists_mul_two_zpow K (quantumExp_mono hpos h)
    rw [← hK] at hM
    rw [hM]
    exact roundNearest_le x M (by rw [← hM]; exact h)

theorem toNumber_of_le_isDouble {x y : ℚ} (hx : 0 ≤ x) (h : x ≤ y) (hy : IsDouble y) :
    toNumber x = JsNumber.finite (roundNearest x) ∧ 0 ≤ roundNearest x ∧ roundNearest x ≤ y := by
  have hle := roundNearest_le_of_isDouble hx h hy
  have h0 := roundNearest_nonneg x hx
  have hylt := (abs_lt.mp ((isDouble_iff y).mp hy).2).2
  refine ⟨toNumber_of_bounds x (lt_of_le_of_lt hle hylt) ?_, h0, hle⟩
  have : (0 : ℚ) < 2 ^ (1024 : ℕ) := by positivity
  linarith

/-- A whole number below `2 ^ 53` in size is a double. -/
theorem isDouble_intCast (z : ℤ) (hz : |z| < 2 ^ (53 : ℕ)) : IsDouble (z : ℚ) := by
  rw [isDouble_iff]
  have habs : |(z : ℚ)| < 2 ^ (53 : ℕ) := by exact_mod_cast hz
  constructor
  · rcases eq_or_ne z 0 with h0 | h0
    · rw [h0]
      simpa using roundNearest_zero
    · have hq : quantumExp (z : ℚ) ≤ 0 := by
        have h53 : (2 : ℚ) ^ (53 : ℤ) = 2 ^ (53 : ℕ) := by norm_num
        have := quantumExp_le_of_lt (e := 53) (Int.cast_ne_zero.mpr h0)
          (by rw [h53]; exact habs) (by norm_num)
        omega
      obtain ⟨M, hM⟩ := exists_int_mul_two_zpow z hq
      exact roundNearest_of_multiple _ M hM
  · exact lt_trans habs (by norm_num)

/-! ## Evaluating a rounding -/

theorem roundNearest_eq_of_near (x : ℚ) (e k : ℤ) (h1 : 2 ^ e ≤ |x|) (h2 : |x| < 2 ^ (e + 1))
    (he : -1022 ≤ e) (hk1 : (k : ℚ) - 1 / 2 < x / 2 ^ (e - 52))
    (hk2 : x / 2 ^ (e - 52) < k + 1 / 2) : roundNearest x = k * 2 ^ (e - 52) := by
  have hq : quantumExp x = e - 52 := by
    rw [quantumExp_of_binade h1 h2, max_eq_left he]
  unfold roundNearest
  rw [hq, roundHalfEven_eq_of_near _ k hk1 hk2]

theorem roundNearest_eq_of_tie (x : ℚ) (e k : ℤ) (h1 : 2 ^ e ≤ |x|) (h2 : |x| < 2 ^ (e + 1))
    (he : -1022 ≤ e) (hk : x / 2 ^ (e - 52) = k + 1 / 2) :
    roundNearest x = (if k % 2 = 0 then k else k + 1 : ℤ) * 2 ^ (e - 52) := by
  have hq : quantumExp x = e - 52 := by
    rw [quantumExp_of_binade h1 h2, max_eq_left he]
  unfold roundNearest
  rw [hq, hk, roundHalfEven_tie]

theorem isDouble_of_binade (x : ℚ) (e k : ℤ) (h1 : 2 ^ e ≤ |x|) (h2 : |x| < 2 ^ (e + 1))
    (he : -1022 ≤ e) (he2 : e < 1024) (hk : x = k * 2 ^ (e - 52)) : IsDouble x := by
  have hq : quantumExp x = e - 52 := by
    rw [quantumExp_of_binade h1 h2, max_eq_left he]
  rw [isDouble_iff]
  refine ⟨roundNearest_of_multiple x k (by rw [hq]; exact hk), lt_of_lt_of_le h2 ?_⟩
  rw [← zpow_natCast]
  exact zpow_le_zpow_right₀ (by norm_num) (by omega)

/-! ## The largest double below one -/

theorem IsDouble.le_pred_one {r : ℚ} (hr : IsDouble r) (h0 : 0 ≤ r) (h1 : r < 1) :
    r ≤ 1 - 2 ^ (-53 : ℤ) := by
  by_contra hcon
  have hgt : 1 - (2 : ℚ) ^ (-53 : ℤ) < r := lt_of_not_le hcon
  have hc : (2 : ℚ) ^ (-53 : ℤ) = 1 / 9007199254740992 := by norm_num
  rw [hc] at hgt
  have habs : |r| = r := abs_of_nonneg h0
  have hq : quantumExp r = -53 := by
    have := quantumExp_of_binade (x := r) (e := -1) (by rw [habs]; norm_num; linarith)
      (by rw [habs]; norm_num; linarith)
    rw [this]
    norm_num
  obtain ⟨K, hK⟩ := hr.eq_mul
  rw [hq, hc] at hK
  have hK1 : ((9007199254740991 : ℤ) : ℚ) < K := by push_cast; linarith
  have hK2 : (K : ℚ) < ((9007199254740992 : ℤ) : ℚ) := by push_cast; linarith
  have h3 : (9007199254740991 : ℤ) < K := by exact_mod_cast hK1
  have h4 : K < (9007199254740992 : ℤ) := by exact_mod_cast hK2
  omega

/-- `Math.random() * N` stays below `N` after rounding. -/
theorem roundNearest_mul_lt (r : ℚ) (N : ℕ) (hr : IsDouble r) (h0 : 0 ≤ r) (h1 : r < 1)
    (hN : 1 ≤ N) : 0 ≤ roundNearest (r * N) ∧ roundNearest (r * N) < N := by
  have hNq : (1 : ℚ) ≤ N := by exact_mod_cast hN
  have hx0 : 0 ≤ r * N := mul_nonneg h0 (by linarith)
  refine ⟨roundNearest_nonneg _ hx0, ?_⟩
  rcases eq_or_lt_of_le hx0 with hz | hpos
  · rw [← hz, roundNearest_zero]
    linarith
  · have hle := hr.le_pred_one h0 h1
    have herr := roundNearest_le_add (r * N)
    have hq := two_zpow_quantumExp_le (r * N) hpos
    have hc53 : (2 : ℚ) ^ (-53 : ℤ) = 1 / 9007199254740992 := by norm_num
    have hc52 : (2 : ℚ) ^ (-52 : ℤ) = 1 / 4503599627370496 := by norm_num
    have hsmall : (2 : ℚ) ^ (-1074 : ℤ) ≤ 2 ^ (-110 : ℤ) :=
      zpow_le_zpow_right₀ (by norm_num) (by norm_num)
    have hc110 : (2 : ℚ) ^ (-110 : ℤ) = 1 / 1298074214633706907132624082305024 := by norm_num
    rw [hc53] at hle
    rw [hc52] at hq
    rw [hc110] at hsmall
    have hx : r * N ≤ (1 - 1 / 9007199254740992) * N :=
      mul_le_mul_of_nonneg_right hle (by linarith)
    nlinarith

/-! ## When the floor of a rounded value is the floor of the exact one -/

/-- If the exact value lies in `[k, k + 1)` and stays half a spacing away
from `k + 1`, the rounded value lies in `[k, k + 1)` as well. -/
theorem roundNearest_mem_unit (x : ℚ) (k : ℤ) (hq : quantumExp x ≤ 0) (h1 : (k : ℚ) ≤ x)
    (h2 : x < k + 1 - 2 ^ quantumExp x / 2) :
    (k : ℚ) ≤ roundNearest x ∧ roundNearest x < k + 1 := by
  obtain ⟨M, hM⟩ := exists_int_mul_two_zpow k hq
  obtain ⟨M', hM'⟩ := exists_int_mul_two_zpow (k + 1) hq
  constructor
  · rw [hM]
    exact roundNearest_ge x M (by rw [← hM]; exact h1)
  · have hlt := roundNearest_lt x M' (by
      have : ((M' : ℚ) - 1 / 2) * 2 ^ quantumExp x =
          M' * 2 ^ quantumExp x - 2 ^ quantumExp x / 2 := by ring
      rw [this, ← hM']
      push_cast
      exact h2)
    rw [← hM'] at hlt
    push_cast at hlt
    exact hlt

theorem floor_roundNearest_eq (x : ℚ) (k : ℤ) (hq : quantumExp x ≤ 0) (h1 : (k : ℚ) ≤ x)
    (h2 : x < k + 1 - 2 ^ quantumExp x / 2) : ⌊roundNearest x⌋ = k := by
  obtain ⟨ha, hb⟩ := roundNearest_mem_unit x k hq h1 h2
  rw [Int.floor_eq_iff]
  exact ⟨ha, hb⟩

theorem two_zpow_quantumExp_le_of_lt {x : ℚ} {e : ℤ} (hx : x ≠ 0) (h : |x| < 2 ^ e)
    (he : -1021 ≤ e) : (2 : ℚ) ^ quantumExp x ≤ 2 ^ (e - 53) :=
  zpow_le_zpow_right₀ (by norm_num) (quantumExp_le_of_lt hx h he)

/-- `Math.floor(n / 60)` is the whole quotient for a whole `n` below `2 ^ 53`. -/
theorem floor_roundNearest_div_sixty (n : ℕ) (hn : n < 2 ^ 53) :
    ⌊roundNearest ((n : ℚ) / 60)⌋ = ((n / 60 : ℕ) : ℤ) ∧
      toNumber ((n : ℚ) / 60) = JsNumber.finite (roundNearest ((n : ℚ) / 60)) := by
  have hsplit : (n : ℚ) = 60 * ((n / 60 : ℕ) : ℚ) + ((n % 60 : ℕ) : ℚ) := by
    exact_mod_cast (Nat.div_add_mod n 60).symm
  have hrem : ((n % 60 : ℕ) : ℚ) ≤ 59 := by
    have : n % 60 ≤ 59 := by omega
    exact_mod_cast this
  have hrem0 : (0 : ℚ) ≤ ((n % 60 : ℕ) : ℚ) := Nat.cast_nonneg _
  have hk0 : (0 : ℚ) ≤ ((n / 60 : ℕ) : ℚ) := Nat.cast_nonneg _
  have hnq : (n : ℚ) < 9007199254740992 := by exact_mod_cast hn
  have hx0 : (0 : ℚ) ≤ (n : ℚ) / 60 := div_nonneg (Nat.cast_nonneg n) (by norm_num)
  have hlow : (((n / 60 : ℕ) : ℤ) : ℚ) ≤ (n : ℚ) / 60 := by
    rw [Int.cast_natCast, le_div_iff₀ (by norm_num)]
    linarith
  have hkey : (((n / 60 : ℕ) : ℤ) : ℚ) ≤ roundNearest ((n : ℚ) / 60) ∧
      roundNearest ((n : ℚ) / 60) < (((n / 60 : ℕ) : ℤ) : ℚ) + 1 := by
    rcases eq_or_lt_of_le hx0 with hz | hpos
    · rw [← hz, roundNearest_zero]
      rw [← hz] at hlow
      constructor
      · exact hlow
      · rw [Int.cast_natCast]
        linarith
    · have habs : |(n : ℚ) / 60| < 2 ^ (48 : ℤ) := by
        rw [abs_of_pos hpos, div_lt_iff₀ (by norm_num)]
        norm_num
        linarith
      have hq := quantumExp_le_of_lt hpos.ne' habs (by norm_num)
      have hq2 := two_zpow_quantumExp_le_of_lt hpos.ne' habs (by norm_num)
      have hc : (2 : ℚ) ^ ((48 : ℤ) - 53) = 1 / 32 := by norm_num
      rw [hc] at hq2
      refine roundNearest_mem_unit _ _ (by omega) hlow ?_
      rw [Int.cast_natCast, div_lt_iff₀ (by norm_num)]
      linarith
  refine ⟨?_, ?_⟩
  · rw [Int.floor_eq_iff]
    exact hkey
  · refine toNumber_of_bounds _ ?_ ?_
    · have hk : (((n / 60 : ℕ) : ℤ) : ℚ) + 1 ≤ 2 ^ (1024 : ℕ) := by
        rw [Int.cast_natCast]
        have h1 : ((n / 60 : ℕ) : ℚ) ≤ n := by
          exact_mod_cast Nat.div_le_self n 60
        have h2 : (9007199254740993 : ℚ) ≤ 2 ^ (1024 : ℕ) := by norm_num
        linarith
      exact lt_of_lt_of_le hkey.2 hk
    · have h0 : (0 : ℚ) ≤ roundNearest ((n : ℚ) / 60) := roundNearest_nonneg _ hx0
      have : (0 : ℚ) < 2 ^ (1024 : ℕ) := by positivity
      linarith

/-! ## Draws that land on a given index -/

theorem isDouble_grid (j : ℕ) (hj : j < 2 ^ 53) : IsDouble ((j : ℚ) * 2 ^ (-53 : ℤ)) := by
  have hc : (2 : ℚ) ^ (-53 : ℤ) = 1 / 9007199254740992 := by norm_num
  have hjq : (j : ℚ) < 9007199254740992 := by exact_mod_cast hj
  have hj0 : (0 : ℚ) ≤ j := Nat.cast_nonneg j
  rcases Nat.eq_zero_or_pos j with h0 | hpos
  · rw [h0]
    simpa using isDouble_zero
  · have hposq : (0 : ℚ) < j := by exact_mod_cast hpos
    have hxpos : (0 : ℚ) < (j : ℚ) * 2 ^ (-53 : ℤ) := mul_pos hposq (two_zpow_pos _)
    have habs : |(j : ℚ) * 2 ^ (-53 : ℤ)| < 2 ^ (0 : ℤ) := by
      rw [abs_of_pos hxpos, hc]
      norm_num
      linarith
    have hq := quantumExp_le_of_lt hxpos.ne' habs (by norm_num)
    obtain ⟨M, hM⟩ := exists_mul_two_zpow (j : ℤ) (p := -53)
      (q := quantumExp ((j : ℚ) * 2 ^ (-53 : ℤ))) (by omega)
    rw [Int.cast_natCast] at hM
    rw [isDouble_iff]
    refine ⟨roundNearest_of_multiple _ M hM, lt_trans habs ?_⟩
    norm_num

/-- For a list of at most `2 ^ 32` elements every index is the result of
some draw. -/
theorem exists_draw_of_index (i N : ℕ) (hi : i < N) (hN : N ≤ 2 ^ 32) :
    ∃ r : ℚ, IsDouble r ∧ 0 ≤ r ∧ r < 1 ∧ ⌊roundNearest (r * N)⌋ = (i : ℤ) := by
  have hc : (2 : ℚ) ^ (-53 : ℤ) = 1 / 9007199254740992 := by norm_num
  obtain ⟨j, hj1, hj2⟩ : ∃ j : ℕ, i * 2 ^ 53 ≤ j * N ∧ j * N < i * 2 ^ 53 + N := by
    refine ⟨(i * 2 ^ 53 + (N - 1)) / N, ?_, ?_⟩
    · have h1 := Nat.div_add_mod (i * 2 ^ 53 + (N - 1)) N
      have h2 := Nat.mod_lt (i * 2 ^ 53 + (N - 1)) (by omega : 0 < N)
      rw [Nat.mul_comm N] at h1
      generalize (i * 2 ^ 53 + (N - 1)) / N * N = P at h1 ⊢
      generalize (i * 2 ^ 53 + (N - 1)) % N = R at h1 h2
      omega
    · have h1 := Nat.div_mul_le_self (i * 2 ^ 53 + (N - 1)) N
      generalize (i * 2 ^ 53 + (N - 1)) / N * N = P at h1 ⊢
      omega
  have hNq : (N : ℚ) ≤ 4294967296 := by exact_mod_cast hN
  have hNpos : (0 : ℚ) < N := by exact_mod_cast (by omega : 0 < N)
  have hiq : (i : ℚ) + 1 ≤ N := by exact_mod_cast hi
  have hj1q : (i : ℚ) * 9007199254740992 ≤ j * N := by exact_mod_cast hj1
  have hj2q : (j : ℚ) * N < i * 9007199254740992 + N := by exact_mod_cast hj2
  have hjlt : j < 2 ^ 53 := by
    have h : (j : ℚ) * N < 9007199254740992 * N := by nlinarith
    have h2 : (j : ℚ) < 9007199254740992 := lt_of_mul_lt_mul_right h hNpos.le
    exact_mod_cast h2
  have hjq : (j : ℚ) < 9007199254740992 := by exact_mod_cast hjlt
  have hj0 : (0 : ℚ) ≤ j := Nat.cast_nonneg j
  refine ⟨(j : ℚ) * 2 ^ (-53 : ℤ), isDouble_grid j hjlt, ?_, ?_, ?_⟩
  · rw [hc]; positivity
  · rw [hc]; linarith
  · have hxlow : ((i : ℤ) : ℚ) ≤ (j : ℚ) * 2 ^ (-53 : ℤ) * N := by
      rw [Int.cast_natCast, hc]
      linarith
    have hxup : (j : ℚ) * 2 ^ (-53 : ℤ) * N < i + 1 / 2097152 := by
      rw [hc]
      linarith
    have hx0 : (0 : ℚ) ≤ (j : ℚ) * 2 ^ (-53 : ℤ) * N :=
      le_trans (by exact_mod_cast Nat.zero_le i) hxlow
    rcases eq_or_lt_of_le hx0 with hz | hpos
    · rw [← hz, roundNearest_zero, Int.floor_zero]
      rw [← hz] at hxlow
      have : ((i : ℤ) : ℚ) ≤ ((0 : ℤ) : ℚ) := by simpa using hxlow
      have h3 : (i : ℤ) ≤ 0 := by exact_mod_cast this
      omega
    · have habs : |(j : ℚ) * 2 ^ (-53 : ℤ) * N| < 2 ^ (32 : ℤ) := by
        rw [abs_of_pos hpos]
        norm_num
        norm_num at hxup
        linarith
      have hq := quantumExp_le_of_lt hpos.ne' habs (by norm_num)
      have hq2 := two_zpow_quantumExp_le_of_lt hpos.ne' habs (by norm_num)
      have hc2 : (2 : ℚ) ^ ((32 : ℤ) - 53) = 1 / 2097152 := by norm_num
      rw [hc2] at hq2
      refine floor_roundNearest_eq _ _ (by omega) hxlow ?_
      rw [Int.cast_natCast]
      linarith

/-! ## Positive values -/

theorem roundNearest_eq_of_near_pos (x : ℚ) (e k : ℤ) (h1 : 2 ^ e ≤ x) (h2 : x < 2 ^ (e + 1))
    (he : -1022 ≤ e) (hk1 : (k : ℚ) - 1 / 2 < x / 2 ^ (e - 52))
    (hk2 : x / 2 ^ (e - 52) < k + 1 / 2) : roundNearest x = k * 2 ^ (e - 52) := by
  have hpos : 0 < x := lt_of_lt_of_le (two_zpow_pos e) h1
  exact roundNearest_eq_of_near x e k (by rwa [abs_of_pos hpos]) (by rwa [abs_of_pos hpos]) he
    hk1 hk2

theorem roundNearest_eq_of_tie_pos (x : ℚ) (e k : ℤ) (h1 : 2 ^ e ≤ x) (h2 : x < 2 ^ (e + 1))
    (he : -1022 ≤ e) (hk : x / 2 ^ (e - 52) = k + 1 / 2) :
    roundNearest x = (if k % 2 = 0 then k else k + 1 : ℤ) * 2 ^ (e - 52) := by
  have hpos : 0 < x := lt_of_lt_of_le (two_zpow_pos e) h1
  exact roundNearest_eq_of_tie x e k (by rwa [abs_of_pos hpos]) (by rwa [abs_of_pos hpos]) he hk

theorem isDouble_of_binade_pos (x : ℚ) (e k : ℤ) (h1 : 2 ^ e ≤ x) (h2 : x < 2 ^ (e + 1))
    (he : -1022 ≤ e) (he2 : e < 1024) (hk : x = k * 2 ^ (e - 52)) : IsDouble x := by
  have hpos : 0 < x := lt_of_lt_of_le (two_zpow_pos e) h1
  exact isDouble_of_binade x e k (by rwa [abs_of_pos hpos]) (by rwa [abs_of_pos hpos]) he he2 hk

theorem isDouble_drawThird : IsDouble drawThird :=
  isDouble_of_binade_pos _ (-2) 6004799503160661 (by norm_num [drawThird])
    (by norm_num [drawThird]) (by norm_num) (by norm_num) (by norm_num [drawThird])

theorem isDouble_half : IsDouble (1 / 2) :=
  isDouble_of_binade_pos _ (-1) 4503599627370496 (by norm_num) (by norm_num) (by norm_num)
    (by norm_num) (by norm_num)

end MusicLibrary

/-! ## Next, previous, end of song -/

namespace MusicLibrary

theorem playNext_sequential (s : State) (r : ℚ) (post : Fetch Unit) (play : PlayOutcome)
    (hshuffle : s.isShuffled = false) (hne : s.filteredSongs ≠ []) :
    playNext s r post play =
      playSong
        { s with
          currentSongIndex :=
            if s.currentSongIndex + 1 ≥ (s.filteredSongs.length : Int) then 0
            else s.currentSongIndex + 1 }
        (if s.currentSongIndex + 1 ≥ (s.filteredSongs.length : Int) then 0
          else s.currentSongIndex + 1) post play := by
  have hlen : ¬ s.filteredSongs.length = 0 := by simpa using hne
  unfold playNext
  rw [if_neg hlen]
  simp only [hshuffle, Bool.false_eq_true, if_false]
  split <;> rfl

theorem playNext_shuffled (s : State) (r : ℚ) (post : Fetch Unit) (play : PlayOutcome)
    (hshuffle : s.isShuffled = true) (hne : s.filteredSongs ≠ []) :
    playNext s r post play =
      playSong { s with currentSongIndex := ⌊roundNearest (r * (s.filteredSongs.length : ℚ))⌋ }
        ⌊roundNearest (r * (s.filteredSongs.length : ℚ))⌋ post play := by
  have hlen : ¬ s.filteredSongs.length = 0 := by simpa using hne
  unfold playNext
  rw [if_neg hlen]
  simp only [hshuffle, if_true]

theorem playPrevious_eq (s : State) (post : Fetch Unit) (play : PlayOutcome)
    (hne : s.filteredSongs ≠ []) :
    playPrevious s post play =
      playSong
        { s with
          currentSongIndex :=
            if s.currentSongIndex - 1 < 0 then (s.filteredSongs.length : Int) - 1
            else s.currentSongIndex - 1 }
        (if s.currentSongIndex - 1 < 0 then (s.filteredSongs.length : Int) - 1
          else s.currentSongIndex - 1) post play := by
  have hlen : ¬ s.filteredSongs.length = 0 := by simpa using hne
  unfold playPrevious
  rw [if_neg hlen]
  dsimp only
  split <;> rfl

theorem ne_nil_of_index_lt (s : State) (h0 : 0 ≤ s.currentSongIndex)
    (hN : s.currentSongIndex < (s.filteredSongs.length : Int)) : s.filteredSongs ≠ [] := by
  intro h
  rw [h] at hN
  simp at hN
  omega

/-- C1: with shuffle disabled and `0 <= i < N` for the cursor `i` and the
size `N` of the active view, `playNext()` moves the cursor to `i + 1` when
`i < N - 1` and to `0` when `i = N - 1`, that is to `(i + 1) mod N`, and
plays the song at that index: it is `playSong` of the new index, which
shows that song as now playing, loads its stream and posts its play count. -/
theorem C1_playNext_advances_and_wraps (s : State) (r : ℚ) (post : Fetch Unit)
    (play : PlayOutcome) (hshuffle : s.isShuffled = false) (h0 : 0 ≤ s.currentSongIndex)
    (hN : s.currentSongIndex < (s.filteredSongs.length : Int)) :
    (s.currentSongIndex + 1) % (s.filteredSongs.length : Int) =
        (if s.currentSongIndex < (s.filteredSongs.length : Int) - 1
          then s.currentSongIndex + 1 else 0) ∧
      playNext s r post play =
        playSong
          { s with currentSongIndex := (s.currentSongIndex + 1) % (s.filteredSongs.length : Int) }
          ((s.currentSongIndex + 1) % (s.filteredSongs.length : Int)) post play ∧
      (playNext s r post play).currentSongIndex =
        (s.currentSongIndex + 1) % (s.filteredSongs.length : Int) ∧
      (playNext s r post play).filteredSongs = s.filteredSongs ∧
      ∃ song,
        songAt s.filteredSongs ((s.currentSongIndex + 1) % (s.filteredSongs.length : Int)) =
          some song ∧
        (playNext s r post play).currentSongTitle = song.title ∧
        (playNext s r post play).audioPlayer.src = some song.id ∧
        (playNext s r post play).requests = s.requests ++ [Request.postPlay song.id] := by
  have hne := ne_nil_of_index_lt s h0 hN
  have hmod : (s.currentSongIndex + 1) % (s.filteredSongs.length : Int) =
      (if s.currentSongIndex + 1 ≥ (s.filteredSongs.length : Int) then 0
        else s.currentSongIndex + 1) := by
    split
    · have : s.currentSongIndex + 1 = (s.filteredSongs.length : Int) := by omega
      rw [this, Int.emod_self]
    · exact Int.emod_eq_of_lt (by omega) (by omega)
  have hstep := playNext_sequential s r post play hshuffle hne
  rw [← hmod] at hstep
  have hrange : 0 ≤ (s.currentSongIndex + 1) % (s.filteredSongs.length : Int) ∧
      (s.currentSongIndex + 1) % (s.filteredSongs.length : Int) <
        (s.filteredSongs.length : Int) := by
    rw [hmod]
    split <;> omega
  obtain ⟨song, hsong⟩ := (songAt_isSome_iff s.filteredSongs _).mpr hrange
  have hplay := playSong_of_songAt
    { s with currentSongIndex := (s.currentSongIndex + 1) % (s.filteredSongs.length : Int) }
    ((s.currentSongIndex + 1) % (s.filteredSongs.length : Int)) post play song hsong
  refine ⟨?_, hstep, ?_, ?_, song, hsong, ?_, ?_, ?_⟩
  · rw [hmod]
    split <;> split <;> omega
  · rw [hstep]; exact hplay.1
  · rw [hstep, playSong_filteredSongs]
  · rw [hstep]; exact hplay.2.1
  · rw [hstep]; exact hplay.2.2.1
  · rw [hstep]; exact hplay.2.2.2.1

theorem C1_playNext_advances_and_wraps_witness :
    (playNext sampleState 0 (Fetch.ok ()) PlayOutcome.resolved).currentSongIndex = 1 ∧
      (playNext { sampleState with currentSongIndex := 2 } 0 (Fetch.ok ())
        PlayOutcome.resolved).currentSongIndex = 0 :=
  ⟨(C1_playNext_advances_and_wraps sampleState 0 (Fetch.ok ()) PlayOutcome.resolved rfl
      (by decide) (by decide)).2.2.1,
    (C1_playNext_advances_and_wraps { sampleState with currentSongIndex := 2 } 0 (Fetch.ok ())
      PlayOutcome.resolved rfl (by decide) (by decide)).2.2.1⟩

/-- C2: for `0 <= i < N`, whatever the shuffle flag, `playPrevious()` moves
the cursor to `i - 1` when `i > 0` and to `N - 1` when `i = 0`, that is to
`(i - 1 + N) mod N`, and plays the song at that index: it is `playSong` of
the new index, which shows that song as now playing, loads its stream and
posts its play count. -/
theorem C2_playPrevious_retreats_and_wraps (s : State) (post : Fetch Unit)
    (play : PlayOutcome) (h0 : 0 ≤ s.currentSongIndex)
    (hN : s.currentSongIndex < (s.filteredSongs.length : Int)) :
    (s.currentSongIndex - 1 + (s.filteredSongs.length : Int)) % (s.filteredSongs.length : Int) =
        (if 0 < s.currentSongIndex then s.currentSongIndex - 1
          else (s.filteredSongs.length : Int) - 1) ∧
      playPrevious s post play =
        playSong
          { s with
            currentSongIndex :=
              (s.currentSongIndex - 1 + (s.filteredSongs.length : Int)) %
                (s.filteredSongs.length : Int) }
          ((s.currentSongIndex - 1 + (s.filteredSongs.length : Int)) %
            (s.filteredSongs.length : Int)) post play ∧
      (playPrevious s post play).currentSongIndex =
        (s.currentSongIndex - 1 + (s.filteredSongs.length : Int)) %
          (s.filteredSongs.length : Int) ∧
      (playPrevious s post play).filteredSongs = s.filteredSongs ∧
      ∃ song,
        songAt s.filteredSongs
            ((s.currentSongIndex - 1 + (s.filteredSongs.length : Int)) %
              (s.filteredSongs.length : Int)) = some song ∧
        (playPrevious s post play).currentSongTitle = song.title ∧
        (playPrevious s post play).audioPlayer.src = some song.id ∧
        (playPrevious s post play).requests = s.requests ++ [Request.postPlay song.id] := by
  have hne := ne_nil_of_index_lt s h0 hN
  have hmod : (s.currentSongIndex - 1 + (s.filteredSongs.length : Int)) %
        (s.filteredSongs.length : Int) =
      (if s.currentSongIndex - 1 < 0 then (s.filteredSongs.length : Int) - 1
        else s.currentSongIndex - 1) := by
    split
    · have : s.currentSongIndex = 0 := by omega
      rw [this]
      exact Int.emod_eq_of_lt (by omega) (by omega)
    · rw [Int.add_emod_self]
      exact Int.emod_eq_of_lt (by omega) (by omega)
  have hstep := playPrevious_eq s post play hne
  rw [← hmod] at hstep
  have hrange : 0 ≤ (s.currentSongIndex - 1 + (s.filteredSongs.length : Int)) %
        (s.filteredSongs.length : Int) ∧
      (s.currentSongIndex - 1 + (s.filteredSongs.length : Int)) %
        (s.filteredSongs.length : Int) < (s.filteredSongs.length : Int) := by
    rw [hmod]
    split <;> omega
  obtain ⟨song, hsong⟩ := (songAt_isSome_iff s.filteredSongs _).mpr hrange
  have hplay := playSong_of_songAt
    { s with
      currentSongIndex :=
        (s.currentSongIndex - 1 + (s.filteredSongs.length : Int)) %
          (s.filteredSongs.length : Int) }
    ((s.currentSongIndex - 1 + (s.filteredSongs.length : Int)) %
      (s.filteredSongs.length : Int)) post play song hsong
  refine ⟨?_, hstep, ?_, ?_, song, hsong, ?_, ?_, ?_⟩
  · rw [hmod]
    split <;> split <;> omega
  · rw [hstep]; exact hplay.1
  · rw [hstep, playSong_filteredSongs]
  · rw [hstep]; exact hplay.2.1
  · rw [hstep]; exact hplay.2.2.1
  · rw [hstep]; exact hplay.2.2.2.1

theorem C2_playPrevious_retreats_and_wraps_witness :
    (playPrevious sampleState (Fetch.ok ()) PlayOutcome.resolved).currentSongIndex = 2 ∧
      (playPrevious { sampleState with currentSongIndex := 2, isShuffled := true } (Fetch.ok ())
        PlayOutcome.resolved).currentSongIndex = 1 :=
  ⟨(C2_playPrevious_retreats_and_wraps sampleState (Fetch.ok ()) PlayOutcome.resolved
      (by decide) (by decide)).2.2.1,
    (C2_playPrevious_retreats_and_wraps { sampleState with currentSongIndex := 2, isShuffled := true }
      (Fetch.ok ()) PlayOutcome.resolved (by decide) (by decide)).2.2.1⟩

end MusicLibrary

namespace MusicLibrary

/-- The cursor after a shuffled `playNext()`: the floor of the rounded
product, inside the view. -/
theorem playNext_shuffled_inView (s : State) (r : ℚ) (post : Fetch Unit)
    (play : PlayOutcome) (hshuffle : s.isShuffled = true) (hne : s.filteredSongs ≠ [])
    (hr : IsDouble r) (hr0 : 0 ≤ r) (hr1 : r < 1) :
    (playNext s r post play).currentSongIndex =
        ⌊roundNearest (r * (s.filteredSongs.length : ℚ))⌋ ∧
      0 ≤ (playNext s r post play).currentSongIndex ∧
      (playNext s r post play).currentSongIndex <
        ((playNext s r post play).filteredSongs.length : Int) := by
  have hpos : 0 < s.filteredSongs.length := List.length_pos.mpr hne
  have hidx : (playNext s r post play).currentSongIndex =
      ⌊roundNearest (r * (s.filteredSongs.length : ℚ))⌋ := by
    rw [playNext_shuffled s r post play hshuffle hne]
    exact playSong_currentSongIndex _ _ post play hne
  have hfs : (playNext s r post play).filteredSongs = s.filteredSongs := by
    rw [playNext_shuffled s r post play hshuffle hne, playSong_filteredSongs]
  obtain ⟨hge, hlt⟩ := roundNearest_mul_lt r s.filteredSongs.length hr hr0 hr1 hpos
  refine ⟨hidx, ?_, ?_⟩
  · rw [hidx]
    exact Int.floor_nonneg.mpr hge
  · rw [hidx, hfs, Int.floor_lt]
    exact_mod_cast hlt

/-- C3, as stated, fails: with three songs in view and shuffle on, the draw
`0.3333333333333333` (a double in `[0, 1)`) moves the cursor to 1, while
the floor of the exact product `r * 3` is 0: the product is rounded to the
double 1 before `Math.floor` is taken. -/
theorem C3_floor_of_exact_product_differs :
    IsDouble drawThird ∧ 0 ≤ drawThird ∧ drawThird < 1 ∧
      ({ sampleState with isShuffled := true } : State).filteredSongs.length = 3 ∧
      (playNext { sampleState with isShuffled := true } drawThird (Fetch.ok ())
        PlayOutcome.resolved).currentSongIndex = 1 ∧
      ⌊drawThird * (3 : ℚ)⌋ = 0 := by
  have h0 : 0 ≤ drawThird := by norm_num [drawThird]
  have h1 : drawThird < 1 := by norm_num [drawThird]
  refine ⟨isDouble_drawThird, h0, h1, rfl, ?_, ?_⟩
  · rw [(playNext_shuffled_inView { sampleState with isShuffled := true } drawThird (Fetch.ok ())
      PlayOutcome.resolved rfl (by decide) isDouble_drawThird h0 h1).1]
    have hlen : (({ sampleState with isShuffled := true } : State).filteredSongs.length : ℚ) =
        3 := by
      have : ({ sampleState with isShuffled := true } : State).filteredSongs.length = 3 := rfl
      rw [this]
      norm_num
    rw [hlen, roundNearest_eq_of_tie_pos _ (-1) 9007199254740991 (by norm_num [drawThird])
      (by norm_num [drawThird]) (by norm_num) (by norm_num [drawThird])]
    norm_num
  · rw [Int.floor_eq_iff]
    constructor <;> norm_num [drawThird]

/-- C3, amended: with shuffle enabled, a non-empty active view of size `N`,
any previous cursor and any draw `r`, a double with `0 <= r < 1`,
`playNext()` moves the cursor to the floor of the product `r * N` rounded
to the nearest double, an integer in `[0, N)`; and the new cursor may equal
the previous one: when the previous cursor is inside a view of at most
`2 ^ 32` songs (the limit of an array) some draw gives it back. -/
theorem C3_playNext_shuffle_in_range (s : State) (r : ℚ) (post : Fetch Unit)
    (play : PlayOutcome) (hshuffle : s.isShuffled = true) (hne : s.filteredSongs ≠ [])
    (hr : IsDouble r) (hr0 : 0 ≤ r) (hr1 : r < 1) :
    (playNext s r post play).currentSongIndex =
        ⌊roundNearest (r * (s.filteredSongs.length : ℚ))⌋ ∧
      0 ≤ (playNext s r post play).currentSongIndex ∧
      (playNext s r post play).currentSongIndex <
        ((playNext s r post play).filteredSongs.length : Int) ∧
      (playNext s r post play).filteredSongs = s.filteredSongs ∧
      (0 ≤ s.currentSongIndex → s.currentSongIndex < (s.filteredSongs.length : Int) →
        s.filteredSongs.length ≤ 2 ^ 32 →
        ∃ q : ℚ, IsDouble q ∧ 0 ≤ q ∧ q < 1 ∧
          (playNext s q post play).currentSongIndex = s.currentSongIndex) := by
  obtain ⟨hidx, hge, hlt⟩ := playNext_shuffled_inView s r post play hshuffle hne hr hr0 hr1
  have hfs : (playNext s r post play).filteredSongs = s.filteredSongs := by
    rw [playNext_shuffled s r post play hshuffle hne, playSong_filteredSongs]
  refine ⟨hidx, hge, hlt, hfs, ?_⟩
  intro h0 hN hbound
  have hi : s.currentSongIndex.toNat < s.filteredSongs.length := by omega
  obtain ⟨q, hq, hq0, hq1, hfloor⟩ :=
    exists_draw_of_index s.currentSongIndex.toNat s.filteredSongs.length hi hbound
  refine ⟨q, hq, hq0, hq1, ?_⟩
  rw [(playNext_shuffled_inView s q post play hshuffle hne hq hq0 hq1).1, hfloor]
  exact Int.toNat_of_nonneg h0

theorem C3_playNext_shuffle_in_range_witness :
    (playNext { sampleState with isShuffled := true } (1 / 2) (Fetch.ok ())
        PlayOutcome.resolved).currentSongIndex = 1 ∧
      (1 : Int) < (({ sampleState with isShuffled := true } : State).filteredSongs.length : Int) := by
  have h := C3_playNext_shuffle_in_range { sampleState with isShuffled := true } (1 / 2)
    (Fetch.ok ()) PlayOutcome.resolved rfl (by decide) isDouble_half (by norm_num)
    (by norm_num)
  have hlen : (({ sampleState with isShuffled := true } : State).filteredSongs.length : ℚ) =
      3 := by
    have : ({ sampleState with isShuffled := true } : State).filteredSongs.length = 3 := rfl
    rw [this]
    norm_num
  have hround : roundNearest ((1 / 2 : ℚ) * 3) = 3 / 2 := by
    have hd : IsDouble (3 / 2) :=
      isDouble_of_binade_pos _ 0 6755399441055744 (by norm_num) (by norm_num) (by norm_num)
        (by norm_num) (by norm_num)
    have := ((isDouble_iff _).1 hd).1
    norm_num at this ⊢
    exact this
  have hfloor : ⌊(3 / 2 : ℚ)⌋ = 1 := by
    rw [Int.floor_eq_iff]
    constructor <;> norm_num
  have hidx := h.1
  rw [hlen, hround, hfloor] at hidx
  exact ⟨hidx, by decide⟩

/-- C4: `onSongEnded()` with repeat enabled sets the position of the
transport to 0 and calls `play()` again on the same source, leaving the
cursor and the active view as they were; with repeat disabled its result is
the result of `playNext()` from the same state. -/
theorem C4_onSongEnded_repeat_or_next (s : State) (r : ℚ) (post : Fetch Unit)
    (play : PlayOutcome) :
    (s.isRepeated = true →
      (onSongEnded s r post play).audioPlayer.currentTime = 0 ∧
      (onSongEnded s r post play).audioCalls =
        s.audioCalls ++ [AudioCall.setCurrentTime 0, AudioCall.play] ∧
      (play = PlayOutcome.resolved → (onSongEnded s r post play).audioPlayer.paused = false) ∧
      (onSongEnded s r post play).audioPlayer.src = s.audioPlayer.src ∧
      (onSongEnded s r post play).currentSongIndex = s.currentSongIndex ∧
      (onSongEnded s r post play).filteredSongs = s.filteredSongs ∧
      (onSongEnded s r post play).requests = s.requests) ∧
    (s.isRepeated = false → onSongEnded s r post play = playNext s r post play) := by
  constructor
  · intro hrep
    unfold onSongEnded
    rw [if_pos hrep]
    refine ⟨rfl, by simp [audioPlay, setCurrentTime], ?_, rfl, rfl, rfl, rfl⟩
    intro hplay
    subst hplay
    rfl
  · intro hrep
    unfold onSongEnded
    simp [hrep]

theorem C4_onSongEnded_repeat_or_next_witness :
    (onSongEnded { sampleState with isRepeated := true } 0 (Fetch.ok ())
        PlayOutcome.resolved).audioPlayer.currentTime = 0 ∧
      (onSongEnded { sampleState with isRepeated := true } 0 (Fetch.ok ())
        PlayOutcome.resolved).currentSongIndex = 0 ∧
      onSongEnded sampleState 0 (Fetch.ok ()) PlayOutcome.resolved =
        playNext sampleState 0 (Fetch.ok ()) PlayOutcome.resolved :=
  ⟨((C4_onSongEnded_repeat_or_next { sampleState with isRepeated := true } 0 (Fetch.ok ())
      PlayOutcome.resolved).1 rfl).1,
    ((C4_onSongEnded_repeat_or_next { sampleState with isRepeated := true } 0 (Fetch.ok ())
      PlayOutcome.resolved).1 rfl).2.2.2.2.1,
    (C4_onSongEnded_repeat_or_next sampleState 0 (Fetch.ok ()) PlayOutcome.resolved).2 rfl⟩

end MusicLibrary

/-! ## The cursor under the operations that do not play -/

namespace MusicLibrary

@[simp] theorem loadLibraryStats_currentSongIndex (s : State) (resp : Fetch Unit) :
    (loadLibraryStats s resp).currentSongIndex = s.currentSongIndex := rfl

@[simp] theorem loadPlaylists_currentSongIndex (s : State) (resp : Fetch (List Playlist)) :
    (loadPlaylists s resp).currentSongIndex = s.currentSongIndex := by
  cases resp <;> rfl

@[simp] theorem loadSongs_currentSongIndex (s : State) (resp : Fetch (List Song)) :
    (loadSongs s resp).currentSongIndex = s.currentSongIndex := by
  cases resp <;> rfl

@[simp] theorem loadPlaylistSongs_currentSongIndex (s : State) (playlistId : String)
    (resp : Fetch (Option (List Song))) :
    (loadPlaylistSongs s playlistId resp).currentSongIndex = s.currentSongIndex := by
  cases resp <;> rfl

@[simp] theorem showNotification_currentSongIndex (s : State) (message : String)
    (type : NotificationType) :
    (showNotification s message type).currentSongIndex = s.currentSongIndex := rfl

@[simp] theorem sendRequest_currentSongIndex (s : State) (r : Request) :
    (sendRequest s r).currentSongIndex = s.currentSongIndex := rfl

@[simp] theorem switchPlaylist_currentSongIndex (s : State) (playlistId : String)
    (songsResp : Fetch (List Song)) (playlistResp : Fetch (Option (List Song))) :
    (switchPlaylist s playlistId songsResp playlistResp).currentSongIndex =
      s.currentSongIndex := by
  unfold switchPlaylist
  dsimp only
  split
  · simp
  · split <;> simp

@[simp] theorem searchSongs_currentSongIndex (s : State) (query : String)
    (songsResp : Fetch (List Song)) (playlistResp : Fetch (Option (List Song)))
    (searchResp : Fetch (List Song)) :
    (searchSongs s query songsResp playlistResp searchResp).currentSongIndex =
      s.currentSongIndex := by
  unfold searchSongs
  split
  · split <;> simp
  · cases searchResp <;> rfl

@[simp] theorem refreshLibrary_currentSongIndex (s : State) (env : RefreshEnv) :
    (refreshLibrary s env).currentSongIndex = s.currentSongIndex := by
  simp [refreshLibrary]

@[simp] theorem addSongToPlaylist_currentSongIndex (s : State) (playlistId : String)
    (songId : Nat) (resp : Fetch Unit) :
    (addSongToPlaylist s playlistId songId resp).1.currentSongIndex = s.currentSongIndex := by
  cases resp <;> rfl

@[simp] theorem uploadStep_currentSongIndex (playlistId : String) (acc : UploadProgress)
    (file : UploadFile) :
    (uploadStep playlistId acc file).state.currentSongIndex = acc.state.currentSongIndex := by
  unfold uploadStep
  dsimp only
  split
  · split
    · simp
    · split
      · simp
      · split <;> simp
      · simp
  · simp
  · simp

theorem foldl_uploadStep_currentSongIndex (playlistId : String) (files : List UploadFile)
    (acc : UploadProgress) :
    (files.foldl (uploadStep playlistId) acc).state.currentSongIndex =
      acc.state.currentSongIndex := by
  induction files generalizing acc with
  | nil => rfl
  | cons file rest ih => rw [List.foldl_cons, ih, uploadStep_currentSongIndex]

@[simp] theorem handleUpload_currentSongIndex (s : State) (files : List UploadFile)
    (playlistId : String) (refresh : RefreshEnv) :
    (handleUpload s files playlistId refresh).currentSongIndex = s.currentSongIndex := by
  unfold handleUpload
  split
  · rfl
  · simp [uploadLoop, foldl_uploadStep_currentSongIndex]

@[simp] theorem handleCreatePlaylist_currentSongIndex (s : State) (name description : String)
    (resp : Fetch Unit) (refresh : RefreshEnv) :
    (handleCreatePlaylist s name description resp refresh).currentSongIndex =
      s.currentSongIndex := by
  unfold handleCreatePlaylist
  split
  · rfl
  · cases resp <;> simp

@[simp] theorem removeSongFromPlaylist_currentSongIndex (s : State) (songId : Nat)
    (confirmed : Bool) (resp : Fetch Unit) (playlistResp : Fetch (Option (List Song)))
    (playlistsResp : Fetch (List Playlist)) :
    (removeSongFromPlaylist s songId confirmed resp playlistResp playlistsResp).currentSongIndex =
      s.currentSongIndex := by
  unfold removeSongFromPlaylist
  split
  · rfl
  · cases resp <;> simp

@[simp] theorem deleteSong_currentSongIndex (s : State) (songId : Nat) (confirmed : Bool)
    (resp : Fetch Unit) (refresh : RefreshEnv) :
    (deleteSong s songId confirmed resp refresh).currentSongIndex = s.currentSongIndex := by
  unfold deleteSong
  split
  · rfl
  · cases resp with
    | ok body =>
      dsimp only
      split
      · split
        · simp [audioPause]
        · simp
      · simp
    | fail error => simp
    | networkError => simp

@[simp] theorem deletePlaylist_currentSongIndex (s : State) (playlistId : Nat)
    (confirmed : Bool) (resp : Fetch Unit) (switchResp : Fetch (List Song))
    (refresh : RefreshEnv) :
    (deletePlaylist s playlistId confirmed resp switchResp refresh).currentSongIndex =
      s.currentSongIndex := by
  unfold deletePlaylist
  split
  · rfl
  · split
    · rfl
    · cases resp with
      | ok body =>
        dsimp only
        split <;> simp
      | fail error => simp
      | networkError => simp

end MusicLibrary

/-! ## The playing flag under the operations that replace the view -/

namespace MusicLibrary

@[simp] theorem loadSongs_isPlaying (s : State) (resp : Fetch (List Song)) :
    (loadSongs s resp).isPlaying = s.isPlaying := by
  cases resp <;> rfl

@[simp] theorem loadPlaylists_isPlaying (s : State) (resp : Fetch (List Playlist)) :
    (loadPlaylists s resp).isPlaying = s.isPlaying := by
  cases resp <;> rfl

@[simp] theorem loadPlaylistSongs_isPlaying (s : State) (playlistId : String)
    (resp : Fetch (Option (List Song))) :
    (loadPlaylistSongs s playlistId resp).isPlaying = s.isPlaying := by
  cases resp <;> rfl

theorem switchPlaylist_isPlaying (s : State) (playlistId : String)
    (songsResp : Fetch (List Song)) (playlistResp : Fetch (Option (List Song))) :
    (switchPlaylist s playlistId songsResp playlistResp).isPlaying = s.isPlaying := by
  unfold switchPlaylist
  dsimp only
  split
  · simp
  · split <;> simp

theorem searchSongs_isPlaying (s : State) (query : String)
    (songsResp : Fetch (List Song)) (playlistResp : Fetch (Option (List Song)))
    (searchResp : Fetch (List Song)) :
    (searchSongs s query songsResp playlistResp searchResp).isPlaying = s.isPlaying := by
  unfold searchSongs
  split
  · split <;> simp
  · cases searchResp <;> rfl

theorem refreshLibrary_isPlaying (s : State) (env : RefreshEnv) :
    (refreshLibrary s env).isPlaying = s.isPlaying := by
  simp [refreshLibrary, loadLibraryStats, sendRequest]

/-! ## The cursor under the operations that play -/

theorem playPrevious_nonneg (s : State) (post : Fetch Unit) (play : PlayOutcome)
    (h0 : 0 ≤ s.currentSongIndex) : 0 ≤ (playPrevious s post play).currentSongIndex := by
  by_cases hne : s.filteredSongs = []
  · have : playPrevious s post play = s := by simp [playPrevious, hne]
    rw [this]; exact h0
  · have hpos : 0 < s.filteredSongs.length := List.length_pos.mpr hne
    rw [playPrevious_eq s post play hne, playSong_currentSongIndex _ _ post play (by exact hne)]
    split <;> omega

theorem playNext_nonneg (s : State) (r : ℚ) (post : Fetch Unit) (play : PlayOutcome)
    (h0 : 0 ≤ s.currentSongIndex) (hr0 : 0 ≤ r) :
    0 ≤ (playNext s r post play).currentSongIndex := by
  by_cases hne : s.filteredSongs = []
  · have : playNext s r post play = s := by simp [playNext, hne]
    rw [this]; exact h0
  · cases hsh : s.isShuffled with
    | true =>
      rw [playNext_shuffled s r post play hsh hne,
        playSong_currentSongIndex _ _ post play (by exact hne)]
      exact Int.floor_nonneg.mpr (roundNearest_nonneg _ (mul_nonneg hr0 (Nat.cast_nonneg _)))
    | false =>
      rw [playNext_sequential s r post play hsh hne,
        playSong_currentSongIndex _ _ post play (by exact hne)]
      split <;> omega

theorem togglePlayPause_nonneg (s : State) (post : Fetch Unit) (play : PlayOutcome)
    (h0 : 0 ≤ s.currentSongIndex) : 0 ≤ (togglePlayPause s post play).currentSongIndex := by
  unfold togglePlayPause
  split
  · exact h0
  · rename_i hlen
    have hne : s.filteredSongs ≠ [] := fun h => hlen (by simp [h])
    split
    · split
      · rw [playSong_currentSongIndex s 0 post play hne]
      · cases play <;> exact h0
    · exact h0

/-- The cursor is never negative. -/
theorem Reachable.currentSongIndex_nonneg {s : State} (h : Reachable s) :
    0 ≤ s.currentSongIndex := by
  induction h with
  | initial title artist sortBy => exact le_refl _
  | @playSong s0 index post play _ hlt ih =>
    have hne : s0.filteredSongs ≠ [] := by
      intro h
      rw [h] at hlt
      exact Nat.not_lt_zero _ hlt
    rw [playSong_currentSongIndex _ _ post play hne]
    exact Int.ofNat_nonneg index
  | togglePlayPause post play _ ih => exact togglePlayPause_nonneg _ post play ih
  | playPrevious post play _ ih => exact playPrevious_nonneg _ post play ih
  | playNext r post play _ _ hr0 _ ih => exact playNext_nonneg _ r post play ih hr0
  | onSongEnded r post play _ _ hr0 _ ih =>
    unfold MusicLibrary.onSongEnded
    split
    · exact ih
    · exact playNext_nonneg _ r post play ih hr0
  | toggleShuffle _ ih => exact ih
  | toggleRepeat _ ih => exact ih
  | handleAudioError _ ih => exact ih
  | _ => simp_all

end MusicLibrary

/-! ## The cursor and the active view -/

namespace MusicLibrary

theorem reachable_staleState : Reachable staleState :=
  Reachable.searchSongs "Intro" Fetch.networkError Fetch.networkError
    (Fetch.ok (sampleSongs.take 1))
    (Reachable.playSong 2 (Fetch.ok ()) PlayOutcome.resolved
      (Reachable.loadSongs (Fetch.ok sampleSongs)
        (Reachable.initial "No song selected" "Select a song to play" "title"))
      (by decide))

/-- C5, as stated, fails: start with three songs, play the one at index 2,
then search with a single hit. The state reached has `isPlaying` true and
the cursor 2 outside the one-song view, playback was not cleared (no call
of `pause`), and `playPrevious()` from there ends with the cursor 1, still
outside the view. -/
theorem C5_cursor_outside_view_after_search :
    Reachable staleState ∧ staleState.isPlaying = true ∧ staleState.currentSongIndex = 2 ∧
      staleState.filteredSongs.length = 1 ∧ ¬ InView staleState ∧
      AudioCall.pause ∉ staleState.audioCalls ∧
      (playPrevious staleState (Fetch.ok ()) PlayOutcome.resolved).currentSongIndex = 1 ∧
      (playPrevious staleState (Fetch.ok ()) PlayOutcome.resolved).isPlaying = true ∧
      ¬ InView (playPrevious staleState (Fetch.ok ()) PlayOutcome.resolved) :=
  ⟨reachable_staleState, by decide, by decide, by decide, by decide, by decide, by decide,
    by decide, by decide⟩

/-- C5, amended: in every reachable state the cursor is not negative; the
operations that replace the active view (search, playlist switch, refresh)
leave the cursor and the playing flag as they were, so the upper bound is
not an invariant; and on a non-empty view `playNext()` for any draw, a
double in `[0, 1)`, `playSong(index)` for `0 <= index < N`, and `playPrevious()` from
a cursor of at most `N`, end with the cursor inside the view. -/
theorem C5_cursor_nonneg_and_revalidated (s : State) (h : Reachable s) :
    0 ≤ s.currentSongIndex ∧
      (∀ query songsResp playlistResp searchResp,
        (searchSongs s query songsResp playlistResp searchResp).currentSongIndex =
            s.currentSongIndex ∧
          (searchSongs s query songsResp playlistResp searchResp).isPlaying = s.isPlaying) ∧
      (∀ playlistId songsResp playlistResp,
        (switchPlaylist s playlistId songsResp playlistResp).currentSongIndex =
            s.currentSongIndex ∧
          (switchPlaylist s playlistId songsResp playlistResp).isPlaying = s.isPlaying) ∧
      (∀ env, (refreshLibrary s env).currentSongIndex = s.currentSongIndex ∧
          (refreshLibrary s env).isPlaying = s.isPlaying) ∧
      (∀ (r : ℚ) post play, s.filteredSongs ≠ [] → IsDouble r → 0 ≤ r → r < 1 →
        InView (playNext s r post play)) ∧
      (∀ (index : Int) post play, 0 ≤ index → index < (s.filteredSongs.length : Int) →
        InView (playSong s index post play)) ∧
      (∀ post play, s.filteredSongs ≠ [] →
        s.currentSongIndex ≤ (s.filteredSongs.length : Int) →
        InView (playPrevious s post play)) := by
  have h0 := h.currentSongIndex_nonneg
  refine ⟨h0, ?_, ?_, ?_, ?_, ?_, ?_⟩
  · intro query songsResp playlistResp searchResp
    exact ⟨searchSongs_currentSongIndex _ _ _ _ _, searchSongs_isPlaying _ _ _ _ _⟩
  · intro playlistId songsResp playlistResp
    exact ⟨switchPlaylist_currentSongIndex _ _ _ _, switchPlaylist_isPlaying _ _ _ _⟩
  · intro env
    exact ⟨refreshLibrary_currentSongIndex _ _, refreshLibrary_isPlaying _ _⟩
  · intro r post play hne hr hr0 hr1
    have hpos : 0 < s.filteredSongs.length := List.length_pos.mpr hne
    cases hsh : s.isShuffled with
    | true =>
      have hc := playNext_shuffled_inView s r post play hsh hne hr hr0 hr1
      exact ⟨hc.2.1, hc.2.2⟩
    | false =>
      unfold InView
      rw [playNext_sequential s r post play hsh hne,
        playSong_currentSongIndex _ _ post play (by exact hne), playSong_filteredSongs]
      dsimp only
      split <;> omega
  · intro index post play hi0 hiN
    have hne : s.filteredSongs ≠ [] := by
      intro hnil
      rw [hnil] at hiN
      simp at hiN
      omega
    unfold InView
    rw [playSong_currentSongIndex s index post play hne, playSong_filteredSongs]
    exact ⟨hi0, hiN⟩
  · intro post play hne hle
    have hpos : 0 < s.filteredSongs.length := List.length_pos.mpr hne
    unfold InView
    rw [playPrevious_eq s post play hne,
      playSong_currentSongIndex _ _ post play (by exact hne), playSong_filteredSongs]
    dsimp only
    split <;> omega

theorem C5_cursor_nonneg_and_revalidated_witness :
    0 ≤ staleState.currentSongIndex ∧
      InView (playNext staleState 0 (Fetch.ok ()) PlayOutcome.resolved) ∧
      InView (playSong staleState 0 (Fetch.ok ()) PlayOutcome.resolved) :=
  ⟨(C5_cursor_nonneg_and_revalidated staleState reachable_staleState).1,
    (C5_cursor_nonneg_and_revalidated staleState reachable_staleState).2.2.2.2.1 0 (Fetch.ok ())
      PlayOutcome.resolved (by decide) isDouble_zero (le_refl 0) (by norm_num),
    (C5_cursor_nonneg_and_revalidated staleState reachable_staleState).2.2.2.2.2.1 0 (Fetch.ok ())
      PlayOutcome.resolved (le_refl 0) (by decide)⟩

end MusicLibrary

/-! ## `playSong`: index handling and transport failure -/

namespace MusicLibrary

/-- C6, as stated, fails: with three songs in the view and the cursor at 0,
`playSong(7)` is not rejected: the index 7 is outside the view and the
cursor becomes 7. -/
theorem C6_out_of_range_index_moves_cursor :
    ¬ (0 ≤ (7 : Int) ∧ (7 : Int) < (sampleState.filteredSongs.length : Int)) ∧
      sampleState.currentSongIndex = 0 ∧
      (playSong sampleState 7 (Fetch.ok ()) PlayOutcome.resolved).currentSongIndex = 7 := by
  decide

/-- C6, amended: `playSong(index)` returns at once only on an empty view,
leaving the state as it is. For an index outside `0 <= index < N` it sends
no play-count request and does not touch the audio element or the playing
flag, but on a non-empty view it does set the cursor to `index` and reports
`Failed to play song`. For an index inside the range it sets the cursor to
`index`, loads the stream of `filteredSongs[index]` and posts its play
count. -/
theorem C6_playSong_index_handling (s : State) (index : Int) (post : Fetch Unit)
    (play : PlayOutcome) :
    (s.filteredSongs = [] → playSong s index post play = s) ∧
    (¬ (0 ≤ index ∧ index < (s.filteredSongs.length : Int)) →
      (playSong s index post play).requests = s.requests ∧
      (playSong s index post play).audioCalls = s.audioCalls ∧
      (playSong s index post play).audioPlayer = s.audioPlayer ∧
      (playSong s index post play).isPlaying = s.isPlaying ∧
      (s.filteredSongs ≠ [] →
        (playSong s index post play).currentSongIndex = index ∧
        (playSong s index post play).notifications =
          s.notifications ++
            [{ message := "Failed to play song", type := NotificationType.error }])) ∧
    (0 ≤ index ∧ index < (s.filteredSongs.length : Int) →
      ∃ song, songAt s.filteredSongs index = some song ∧
        (playSong s index post play).currentSongIndex = index ∧
        (playSong s index post play).audioPlayer.src = some song.id ∧
        (playSong s index post play).requests = s.requests ++ [Request.postPlay song.id] ∧
        (playSong s index post play).audioCalls =
          s.audioCalls ++ AudioCall.setSrc song.id ::
            (if post = Fetch.networkError then [] else [AudioCall.play])) := by
  refine ⟨?_, ?_, ?_⟩
  · intro hnil
    simp [playSong, hnil]
  · intro hout
    have hnone := (songAt_eq_none_iff s.filteredSongs index).mpr hout
    by_cases hnil : s.filteredSongs = []
    · have hs : playSong s index post play = s := by simp [playSong, hnil]
      rw [hs]
      exact ⟨rfl, rfl, rfl, rfl, fun h => absurd hnil h⟩
    · have hlen : ¬ s.filteredSongs.length = 0 := by simpa using hnil
      have hs : playSong s index post play =
          showNotification { s with currentSongIndex := index } "Failed to play song"
            NotificationType.error := by
        unfold playSong
        rw [if_neg hlen]
        simp only [hnone]
      rw [hs]
      exact ⟨rfl, rfl, rfl, rfl, fun _ => ⟨rfl, rfl⟩⟩
  · intro hin
    obtain ⟨song, hsong⟩ := (songAt_isSome_iff s.filteredSongs index).mpr hin
    have hplay := playSong_of_songAt s index post play song hsong
    exact ⟨song, hsong, hplay.1, hplay.2.2.1, hplay.2.2.2.1, hplay.2.2.2.2⟩

theorem C6_playSong_index_handling_witness :
    (playSong sampleState 7 (Fetch.ok ()) PlayOutcome.resolved).requests =
        sampleState.requests ∧
      (playSong sampleState 7 (Fetch.ok ()) PlayOutcome.resolved).audioCalls =
        sampleState.audioCalls ∧
      (playSong sampleState 7 (Fetch.ok ()) PlayOutcome.resolved).currentSongIndex = 7 ∧
      ∃ song, songAt sampleState.filteredSongs 1 = some song ∧
        (playSong sampleState 1 (Fetch.ok ()) PlayOutcome.resolved).currentSongIndex = 1 ∧
        (playSong sampleState 1 (Fetch.ok ()) PlayOutcome.resolved).requests =
          sampleState.requests ++ [Request.postPlay song.id] := by
  have hout := (C6_playSong_index_handling sampleState 7 (Fetch.ok ()) PlayOutcome.resolved).2.1
    (by decide)
  obtain ⟨song, hsong, hidx, -, hreq, -⟩ :=
    (C6_playSong_index_handling sampleState 1 (Fetch.ok ()) PlayOutcome.resolved).2.2
      (by decide)
  exact ⟨hout.1, hout.2.1, (hout.2.2.2.2 (by decide)).1, song, hsong, hidx, hreq⟩

/-- C7, as stated, fails: while the first song is playing (`isPlaying` is
true), `playSong(1)` whose `play()` is rejected, and likewise an error event
of the audio element, leave `isPlaying` true. -/
theorem C7_isPlaying_survives_transport_failure :
    playingIntro.isPlaying = true ∧
      (playSong playingIntro 1 (Fetch.ok ()) PlayOutcome.rejected).isPlaying = true ∧
      (handleAudioError playingIntro).isPlaying = true := by
  decide

/-- C7, amended: for every state and every valid index, when `play()` is
rejected in `playSong(index)`, and when the audio element raises an error
event, an error notification is emitted and `isPlaying` keeps the value it
had before (false if nothing was playing, true if a song was). -/
theorem C7_transport_failure_notifies (s : State) (index : Int) (post : Fetch Unit)
    (h0 : 0 ≤ index) (hN : index < (s.filteredSongs.length : Int)) :
    ((playSong s index post PlayOutcome.rejected).isPlaying = s.isPlaying ∧
      (playSong s index post PlayOutcome.rejected).notifications =
        s.notifications ++
          [{ message := "Failed to play song", type := NotificationType.error }]) ∧
    ((handleAudioError s).isPlaying = s.isPlaying ∧
      (handleAudioError s).notifications =
        s.notifications ++
          [{ message := "Error playing audio file", type := NotificationType.error }]) := by
  refine ⟨?_, rfl, rfl⟩
  obtain ⟨song, hsong⟩ := (songAt_isSome_iff s.filteredSongs index).mpr ⟨h0, hN⟩
  have hlen : ¬ s.filteredSongs.length = 0 := by
    intro hz
    rw [hz] at hN
    simp at hN
    omega
  unfold playSong
  rw [if_neg hlen]
  simp only [hsong]
  cases post <;> exact ⟨rfl, rfl⟩

theorem C7_transport_failure_notifies_witness :
    (playSong sampleState 1 (Fetch.ok ()) PlayOutcome.rejected).isPlaying = false ∧
      (playSong playingIntro 1 (Fetch.ok ()) PlayOutcome.rejected).notifications =
        playingIntro.notifications ++
          [{ message := "Failed to play song", type := NotificationType.error }] :=
  ⟨(C7_transport_failure_notifies sampleState 1 (Fetch.ok ()) (by decide) (by decide)).1.1,
    (C7_transport_failure_notifies playingIntro 1 (Fetch.ok ()) (by decide) (by decide)).1.2⟩

end MusicLibrary

/-! ## Deleting a song -/

namespace MusicLibrary

/-- C8 on the code: `Outro` (id 3) is playing and is deleted; the user
confirms, the service deletes it, and the refresh returns the two songs
that remain. The lookup of the deleted song in the refreshed `songs` finds
nothing, so the transport is not paused, `isPlaying` stays true and the
now-playing display still shows `Outro`. Only when the refresh leaves the
cached list as it was does the same call stop playback and reset the
display. -/
theorem C8_deleteSong_of_playing_song_keeps_playing :
    playingOutro.currentSongTitle = "Outro" ∧ playingOutro.isPlaying = true ∧
      playingOutro.audioPlayer.src = some 3 ∧
      (deleteSong playingOutro 3 true (Fetch.ok ()) (refreshOk (sampleSongs.take 2))).songs =
        sampleSongs.take 2 ∧
      (deleteSong playingOutro 3 true (Fetch.ok ()) (refreshOk (sampleSongs.take 2))).isPlaying =
        true ∧
      (deleteSong playingOutro 3 true (Fetch.ok ())
        (refreshOk (sampleSongs.take 2))).currentSongTitle = "Outro" ∧
      AudioCall.pause ∉
        (deleteSong playingOutro 3 true (Fetch.ok ()) (refreshOk (sampleSongs.take 2))).audioCalls ∧
      (deleteSong playingOutro 3 true (Fetch.ok ()) refreshSongsFail).isPlaying = false ∧
      (deleteSong playingOutro 3 true (Fetch.ok ()) refreshSongsFail).currentSongTitle =
        "No song selected" := by
  decide

/-- C9 on the code: the first `Intro` (id 1) is playing and the other song
called `Intro` (id 2) is deleted; the user confirms, the service deletes it,
and the song list of the refresh comes back with an error status, so the
cached list still holds the deleted song. Its title equals the displayed
one, so the transport is paused, `isPlaying` becomes false and the display
is reset, although the playing song was not the deleted one. -/
theorem C9_deleteSong_of_other_song_stops_playback :
    playingIntro.audioPlayer.src = some 1 ∧ playingIntro.isPlaying = true ∧
      playingIntro.currentSongTitle = "Intro" ∧
      AudioCall.pause ∉ playingIntro.audioCalls ∧
      (deleteSong playingIntro 2 true (Fetch.ok ()) refreshSongsFail).isPlaying = false ∧
      (deleteSong playingIntro 2 true (Fetch.ok ()) refreshSongsFail).audioPlayer.paused =
        true ∧
      AudioCall.pause ∈
        (deleteSong playingIntro 2 true (Fetch.ok ()) refreshSongsFail).audioCalls ∧
      (deleteSong playingIntro 2 true (Fetch.ok ()) refreshSongsFail).currentSongTitle =
        "No song selected" ∧
      (deleteSong playingIntro 2 true (Fetch.ok ()) refreshSongsFail).currentSongArtist =
        "Select a song to play" := by
  decide

end MusicLibrary

/-! ## Upload -/

namespace MusicLibrary

theorem addSongToPlaylist_requests (s : State) (playlistId : String) (songId : Nat)
    (resp : Fetch Unit) :
    (addSongToPlaylist s playlistId songId resp).1.requests =
      s.requests ++ [Request.postPlaylistSong playlistId songId] := by
  cases resp <;> rfl

theorem uploadStep_uploadedCount (playlistId : String) (acc : UploadProgress)
    (file : UploadFile) :
    (uploadStep playlistId acc file).uploadedCount =
      acc.uploadedCount + (if file.succeeded then 1 else 0) := by
  unfold uploadStep UploadFile.succeeded
  dsimp only
  split
  · split
    · simp [*]
    · split
      · simp [*]
      · split <;> simp [*]
      · simp [*]
  · simp [*]
  · simp [*]

theorem uploadStep_errors (playlistId : String) (acc : UploadProgress) (file : UploadFile) :
    (uploadStep playlistId acc file).errors =
      acc.errors ++ (uploadError playlistId file).toList := by
  unfold uploadStep uploadError
  dsimp only
  split
  · split
    · rename_i hp
      simp [hp]
    · rename_i hp
      split
      · simp [hp]
      · split <;> simp
      · simp
  · simp
  · simp

theorem uploadStep_requests (playlistId : String) (acc : UploadProgress) (file : UploadFile) :
    (uploadStep playlistId acc file).state.requests.filterMap uploadedName =
      acc.state.requests.filterMap uploadedName ++ [file.name] := by
  unfold uploadStep
  dsimp only
  split
  · split
    · simp [sendRequest, uploadedName]
    · split
      · simp [sendRequest, uploadedName]
      · split
        · simp [addSongToPlaylist_requests, sendRequest, uploadedName]
        · simp [sendRequest, uploadedName]
      · simp [sendRequest, uploadedName]
  · simp [sendRequest, uploadedName]
  · simp [sendRequest, uploadedName]

theorem foldl_uploadStep (playlistId : String) (files : List UploadFile)
    (acc : UploadProgress) :
    (files.foldl (uploadStep playlistId) acc).uploadedCount =
        acc.uploadedCount + files.countP UploadFile.succeeded ∧
      (files.foldl (uploadStep playlistId) acc).errors =
        acc.errors ++ files.filterMap (uploadError playlistId) ∧
      (files.foldl (uploadStep playlistId) acc).state.requests.filterMap uploadedName =
        acc.state.requests.filterMap uploadedName ++ files.map UploadFile.name := by
  induction files generalizing acc with
  | nil => simp
  | cons file rest ih =>
    obtain ⟨hc, he, hr⟩ := ih (uploadStep playlistId acc file)
    rw [List.foldl_cons]
    refine ⟨?_, ?_, ?_⟩
    · rw [hc, uploadStep_uploadedCount, List.countP_cons]
      omega
    · rw [he, uploadStep_errors, List.filterMap_cons]
      cases uploadError playlistId file <;> simp
    · rw [hr, uploadStep_requests]
      simp

/-- A file leaves an entry in `errors` when it was not uploaded or was
counted twice. -/
theorem uploadError_isSome (playlistId : String) (file : UploadFile) :
    (uploadError playlistId file).isSome =
      (!file.succeeded || file.countedTwice playlistId) := by
  unfold uploadError UploadFile.succeeded UploadFile.countedTwice
  cases file.response with
  | ok result =>
    by_cases h : playlistId ≠ "" ∧ result = UploadBody.null
    · simp [h]
    · simp only [if_neg h, Option.isSome_none, Bool.not_true, Bool.false_or]
      exact (decide_eq_false h).symm
  | fail error => rfl
  | networkError => rfl

/-- A file that is counted twice was answered with `ok` true. -/
theorem countedTwice_succeeded (playlistId : String) (file : UploadFile)
    (h : file.countedTwice playlistId = true) : file.succeeded = true := by
  unfold UploadFile.countedTwice at h
  unfold UploadFile.succeeded
  cases hresp : file.response with
  | ok result => rfl
  | fail error =>
    rw [hresp] at h
    simp at h
  | networkError =>
    rw [hresp] at h
    simp at h

/-- The length of `errors` after the loop, over the files. -/
theorem length_filterMap_uploadError (playlistId : String) (files : List UploadFile) :
    files.countP UploadFile.succeeded + (files.filterMap (uploadError playlistId)).length =
      files.length + files.countP (UploadFile.countedTwice playlistId) := by
  induction files with
  | nil => rfl
  | cons file rest ih =>
    have hsome := uploadError_isSome playlistId file
    have htwice := countedTwice_succeeded playlistId file
    rw [List.filterMap_cons, List.countP_cons, List.countP_cons, List.length_cons]
    cases herr : uploadError playlistId file with
    | none =>
      rw [herr] at hsome
      cases hs : file.succeeded <;> cases ht : file.countedTwice playlistId <;>
        (rw [hs, ht] at hsome; simp_all; try omega)
    | some entry =>
      rw [herr] at hsome
      cases hs : file.succeeded <;> cases ht : file.countedTwice playlistId <;>
        (rw [hs, ht] at hsome; simp_all; try omega)

theorem uploadNotification_warning_iff (uploadedCount totalFiles : Nat)
    (errors : List String) :
    (uploadNotification uploadedCount totalFiles errors).type = NotificationType.warning ↔
      errors ≠ [] := by
  unfold uploadNotification
  cases errors <;> simp

theorem uploadLoop_uploadedCount (s : State) (files : List UploadFile) (playlistId : String) :
    (uploadLoop s files playlistId).uploadedCount = files.countP UploadFile.succeeded := by
  unfold uploadLoop
  rw [(foldl_uploadStep playlistId files { state := s, uploadedCount := 0, errors := [] }).1]
  simp

theorem uploadLoop_errors (s : State) (files : List UploadFile) (playlistId : String) :
    (uploadLoop s files playlistId).errors = files.filterMap (uploadError playlistId) := by
  unfold uploadLoop
  rw [(foldl_uploadStep playlistId files { state := s, uploadedCount := 0, errors := [] }).2.1]
  simp

theorem uploadLoop_requests (s : State) (files : List UploadFile) (playlistId : String) :
    (uploadLoop s files playlistId).state.requests.filterMap uploadedName =
      s.requests.filterMap uploadedName ++ files.map UploadFile.name := by
  unfold uploadLoop
  exact (foldl_uploadStep playlistId files
    { state := s, uploadedCount := 0, errors := [] }).2.2

/-- The state `handleUpload` ends in when at least one file is selected:
the loop, the refresh, the notification. -/
theorem handleUpload_of_files (s : State) (files : List UploadFile) (playlistId : String)
    (refresh : RefreshEnv) (hT : 1 ≤ files.length) :
    handleUpload s files playlistId refresh =
      showNotification (refreshLibrary (uploadLoop s files playlistId).state refresh)
        (uploadNotification (uploadLoop s files playlistId).uploadedCount files.length
          (uploadLoop s files playlistId).errors).message
        (uploadNotification (uploadLoop s files playlistId).uploadedCount files.length
          (uploadLoop s files playlistId).errors).type := by
  have hne : ¬ files.length = 0 := by omega
  unfold handleUpload
  rw [if_neg hne]

end MusicLibrary

/-! ## Seeking -/

namespace MusicLibrary

theorem isDouble_one : IsDouble 1 := by
  have h := isDouble_intCast 1 (by norm_num)
  simpa using h

theorem roundNearest_intCast (z : ℤ) (hz : |z| < 2 ^ (53 : ℕ)) : roundNearest (z : ℚ) = z :=
  ((isDouble_iff _).1 (isDouble_intCast z hz)).1

theorem roundNearest_third : roundNearest ((1 : ℚ) / 3) = drawThird := by
  rw [roundNearest_eq_of_near_pos _ (-2) 6004799503160661 (by norm_num) (by norm_num)
    (by norm_num) (by norm_num) (by norm_num)]
  norm_num [drawThird]

theorem roundNearest_third_mul_ten :
    roundNearest (drawThird * 10) = 3752999689475413 / 1125899906842624 := by
  rw [roundNearest_eq_of_near_pos _ 1 7505999378950826 (by norm_num [drawThird])
    (by norm_num [drawThird]) (by norm_num) (by norm_num [drawThird]) (by norm_num [drawThird])]
  norm_num

/-- With a duration that is a non-zero number, `seekSong` assigns the
product when it is finite. -/
theorem seekSong_of_position (s : State) (clientX left width d position : ℚ)
    (hd : s.audioPlayer.duration = JsNumber.finite d) (hd0 : d ≠ 0)
    (hp : ((toNumber (clientX - left)).div (JsNumber.finite width)).mul (JsNumber.finite d) =
      JsNumber.finite position) :
    seekSong s clientX left width = setCurrentTime s position := by
  unfold seekSong
  rw [hd]
  have hf : (JsNumber.finite d).falsy = false := by simp [JsNumber.falsy, hd0]
  rw [hf]
  simp only [Bool.false_eq_true, if_false]
  rw [hp]

/-- A product with an operand that is not finite is not finite. -/
theorem JsNumber.mul_ne_finite_left (x y : JsNumber) (hx : ∀ v, x ≠ JsNumber.finite v)
    (position : ℚ) : x.mul y ≠ JsNumber.finite position := by
  cases x with
  | finite v => exact absurd rfl (hx v)
  | nan => cases y <;> simp [JsNumber.mul]
  | posInf =>
    cases y with
    | finite w =>
      simp only [JsNumber.mul, JsNumber.infinity]
      split_ifs <;> simp
    | _ => simp [JsNumber.mul]
  | negInf =>
    cases y with
    | finite w =>
      simp only [JsNumber.mul, JsNumber.infinity]
      split_ifs <;> simp
    | _ => simp [JsNumber.mul]

/-- A product with an infinite right operand is not finite. -/
theorem JsNumber.mul_posInf_ne_finite (x : JsNumber) (position : ℚ) :
    x.mul JsNumber.posInf ≠ JsNumber.finite position := by
  cases x with
  | finite v =>
    simp only [JsNumber.mul, JsNumber.infinity]
    split_ifs <;> simp
  | _ => simp [JsNumber.mul]

/-- A quotient by zero is not finite. -/
theorem JsNumber.div_zero_ne_finite (x : JsNumber) (v : ℚ) :
    x.div (JsNumber.finite 0) ≠ JsNumber.finite v := by
  cases x with
  | finite w =>
    simp only [JsNumber.div, JsNumber.infinity]
    split_ifs <;> simp
  | _ => simp [JsNumber.div, JsNumber.infinity]

/-- C11, as stated, fails: with a known duration of 10 seconds and the
pointer one pixel into a bar three pixels wide, the position becomes the
double `3.333333333333333`, not the product `(1 - 0) / 3 * 10`: the
quotient and the product are each rounded to a double. -/
theorem C11_position_is_rounded :
    (withDuration 10).audioPlayer.duration = JsNumber.finite 10 ∧
      (seekSong (withDuration 10) 1 0 3).audioPlayer.currentTime =
        3752999689475413 / 1125899906842624 ∧
      (seekSong (withDuration 10) 1 0 3).audioPlayer.currentTime ≠ (1 - 0) / 3 * 10 := by
  have hp : ((toNumber (1 - 0)).div (JsNumber.finite 3)).mul (JsNumber.finite 10) =
      JsNumber.finite (3752999689475413 / 1125899906842624) := by
    have h1 : toNumber ((1 : ℚ) - 0) = JsNumber.finite 1 := by
      rw [sub_zero]
      exact isDouble_one
    have h2 : toNumber ((1 : ℚ) / 3) = JsNumber.finite drawThird := by
      rw [(toNumber_of_le_isDouble (by norm_num) (by norm_num) isDouble_one).1,
        roundNearest_third]
    have h3 : toNumber (drawThird * 10) =
        JsNumber.finite (3752999689475413 / 1125899906842624) := by
      rw [(toNumber_of_le_isDouble (by norm_num [drawThird]) (by norm_num [drawThird])
        (isDouble_intCast 10 (by norm_num))).1, roundNearest_third_mul_ten]
    rw [h1]
    simp only [JsNumber.div]
    rw [if_neg (by norm_num), h2]
    simp only [JsNumber.mul]
    exact h3
  have hs := seekSong_of_position (withDuration 10) 1 0 3 10 _ rfl (by norm_num) hp
  refine ⟨rfl, ?_, ?_⟩
  · rw [hs]
    rfl
  · rw [hs]
    show (3752999689475413 / 1125899906842624 : ℚ) ≠ (1 - 0) / 3 * 10
    norm_num

/-- C11, amended: when the duration is a non-zero number, `seekSong` sets
the position of the transport to the double product of the double quotient
`(clientX - rect.left) / rect.width` and the duration, whenever that
product is finite; for a pointer inside a bar of positive width and a
positive duration, the rounded fraction lies in `[0, 1]` and the position
set lies in `[0, duration]`; when the duration is `NaN` or 0 the call
changes nothing, and neither does it when the duration is infinite or the
width of the bar is 0. -/
theorem C11_seekSong_position (s : State) (clientX left width : ℚ) :
    (∀ d position : ℚ, s.audioPlayer.duration = JsNumber.finite d → d ≠ 0 →
      ((toNumber (clientX - left)).div (JsNumber.finite width)).mul (JsNumber.finite d) =
        JsNumber.finite position →
      (seekSong s clientX left width).audioPlayer.currentTime = position ∧
        (seekSong s clientX left width).audioCalls =
          s.audioCalls ++ [AudioCall.setCurrentTime position]) ∧
    (∀ d : ℚ, s.audioPlayer.duration = JsNumber.finite d → IsDouble d → 0 < d →
      IsDouble width → 0 < width → left ≤ clientX → clientX ≤ left + width →
      0 ≤ roundNearest (roundNearest (clientX - left) / width) ∧
        roundNearest (roundNearest (clientX - left) / width) ≤ 1 ∧
        0 ≤ roundNearest (roundNearest (roundNearest (clientX - left) / width) * d) ∧
        roundNearest (roundNearest (roundNearest (clientX - left) / width) * d) ≤ d ∧
        (seekSong s clientX left width).audioPlayer.currentTime =
          roundNearest (roundNearest (roundNearest (clientX - left) / width) * d) ∧
        (seekSong s clientX left width).audioCalls =
          s.audioCalls ++ [AudioCall.setCurrentTime
            (roundNearest (roundNearest (roundNearest (clientX - left) / width) * d))]) ∧
    (s.audioPlayer.duration = JsNumber.nan ∨ s.audioPlayer.duration = JsNumber.finite 0 →
      seekSong s clientX left width = s) ∧
    (s.audioPlayer.duration = JsNumber.posInf ∨ width = 0 →
      seekSong s clientX left width = s) := by
  refine ⟨?_, ?_, ?_, ?_⟩
  · intro d position hd hd0 hp
    rw [seekSong_of_position s clientX left width d position hd hd0 hp]
    exact ⟨rfl, rfl⟩
  · intro d hd hdD hdpos hwD hwpos hl hr
    obtain ⟨t1, a0, a1⟩ :=
      toNumber_of_le_isDouble (show 0 ≤ clientX - left by linarith)
        (show clientX - left ≤ width by linarith) hwD
    have hf0 : 0 ≤ roundNearest (clientX - left) / width := div_nonneg a0 hwpos.le
    have hf1 : roundNearest (clientX - left) / width ≤ 1 := (div_le_one hwpos).mpr a1
    obtain ⟨t2, b0, b1⟩ := toNumber_of_le_isDouble hf0 hf1 isDouble_one
    have hp0 : 0 ≤ roundNearest (roundNearest (clientX - left) / width) * d :=
      mul_nonneg b0 hdpos.le
    have hp1 : roundNearest (roundNearest (clientX - left) / width) * d ≤ d := by
      calc roundNearest (roundNearest (clientX - left) / width) * d ≤ 1 * d :=
            mul_le_mul_of_nonneg_right b1 hdpos.le
        _ = d := one_mul d
    obtain ⟨t3, c0, c1⟩ := toNumber_of_le_isDouble hp0 hp1 hdD
    have hp : ((toNumber (clientX - left)).div (JsNumber.finite width)).mul
        (JsNumber.finite d) = JsNumber.finite
          (roundNearest (roundNearest (roundNearest (clientX - left) / width) * d)) := by
      rw [t1]
      simp only [JsNumber.div]
      rw [if_neg hwpos.ne', t2]
      simp only [JsNumber.mul]
      exact t3
    rw [seekSong_of_position s clientX left width d _ hd hdpos.ne' hp]
    exact ⟨b0, b1, c0, c1, rfl, rfl⟩
  · intro h
    unfold seekSong
    rcases h with h | h <;> rw [h] <;> simp [JsNumber.falsy]
  · intro h
    unfold seekSong
    split
    · rfl
    · rcases h with h | h
      · rw [h]
        dsimp only
        split
        · next position hp =>
          exact absurd hp (JsNumber.mul_posInf_ne_finite _ _)
        · rfl
      · rw [h]
        dsimp only
        split
        · next position hp =>
          exact absurd hp (JsNumber.mul_ne_finite_left _ _
            (fun v => JsNumber.div_zero_ne_finite _ v) _)
        · rfl

theorem C11_seekSong_position_witness :
    (seekSong (withDuration 200) 150 100 100).audioPlayer.currentTime = 100 ∧
      (0 : ℚ) ≤ 100 ∧ (100 : ℚ) ≤ 200 := by
  have h := (C11_seekSong_position (withDuration 200) 150 100 100).2.1 200 rfl
    (isDouble_intCast 200 (by norm_num)) (by norm_num) (isDouble_intCast 100 (by norm_num))
    (by norm_num) (by norm_num) (by norm_num)
  have e1 : roundNearest ((150 : ℚ) - 100) = 50 := by
    have := roundNearest_intCast 50 (by norm_num)
    norm_num at this ⊢
    exact this
  have e2 : roundNearest ((50 : ℚ) / 100) = 1 / 2 := by
    have := ((isDouble_iff _).1 isDouble_half).1
    norm_num at this ⊢
    exact this
  have e3 : roundNearest ((1 / 2 : ℚ) * 200) = 100 := by
    have := roundNearest_intCast 100 (by norm_num)
    norm_num at this ⊢
    exact this
  rw [e1, e2, e3] at h
  exact ⟨h.2.2.2.2.1, h.2.2.1, h.2.2.2.1⟩

end MusicLibrary

/-! ## Views, refresh and confirmation -/

namespace MusicLibrary

/-- C12: for every playlist id `p` and whatever the first switch received,
`switchPlaylist('all')` after `switchPlaylist(p)`, when the service answers
the song list request with a list, leaves `currentPlaylist = 'all'` and
both `filteredSongs` and the `songs` cache equal to that list, in its order. -/
theorem C12_switch_back_to_all (s : State) (p : String) (songsResp : Fetch (List Song))
    (playlistResp playlistResp2 : Fetch (Option (List Song))) (library : List Song) :
    (switchPlaylist (switchPlaylist s p songsResp playlistResp) "all" (Fetch.ok library)
        playlistResp2).currentPlaylist = "all" ∧
      (switchPlaylist (switchPlaylist s p songsResp playlistResp) "all" (Fetch.ok library)
        playlistResp2).filteredSongs = library ∧
      (switchPlaylist (switchPlaylist s p songsResp playlistResp) "all" (Fetch.ok library)
        playlistResp2).songs = library ∧
      (switchPlaylist (switchPlaylist s p songsResp playlistResp) "all" (Fetch.ok library)
        playlistResp2).requests =
        (switchPlaylist s p songsResp playlistResp).requests ++ [Request.getSongs s.sortSelect] := by
  have hsort : (switchPlaylist s p songsResp playlistResp).sortSelect = s.sortSelect := by
    unfold switchPlaylist
    dsimp only
    split
    · cases songsResp <;> rfl
    · split
      · cases playlistResp <;> rfl
      · rfl
  refine ⟨rfl, rfl, rfl, ?_⟩
  rw [← hsort]
  rfl

/-- C13 on the code: the controller shows playlist 7 (one song) and a
refresh is answered successfully on all three requests. The refresh asks
for the statistics, the playlists and the whole song list, never for the
playlist: afterwards `currentPlaylist` is still `7` while `filteredSongs`
is the whole library of three songs. The empty-query branch of
`searchSongs`, from the same state, does ask for playlist 7 and keeps its
songs in view. -/
theorem C13_refresh_in_playlist_view_shows_library :
    playlistView.currentPlaylist = "7" ∧
      playlistView.filteredSongs = sampleSongs.drop 2 ∧
      (refreshLibrary playlistView refreshAllOk).currentPlaylist = "7" ∧
      (refreshLibrary playlistView refreshAllOk).filteredSongs = sampleSongs ∧
      (refreshLibrary playlistView refreshAllOk).filteredSongs ≠ sampleSongs.drop 2 ∧
      (refreshLibrary playlistView refreshAllOk).requests =
        playlistView.requests ++
          [Request.getStats, Request.getPlaylists, Request.getSongs "title"] ∧
      (searchSongs playlistView "" (Fetch.ok sampleSongs) (Fetch.ok (some (sampleSongs.drop 2)))
        (Fetch.ok [])).requests = playlistView.requests ++ [Request.getPlaylist "7"] ∧
      (searchSongs playlistView "" (Fetch.ok sampleSongs) (Fetch.ok (some (sampleSongs.drop 2)))
        (Fetch.ok [])).filteredSongs = sampleSongs.drop 2 := by
  decide

theorem deletePlaylist_declined (s : State) (playlistId : Nat) (resp : Fetch Unit)
    (switchResp : Fetch (List Song)) (refresh : RefreshEnv) :
    deletePlaylist s playlistId false resp switchResp refresh = s := by
  unfold deletePlaylist
  split <;> rfl

/-- C14: for `deleteSong`, `deletePlaylist` and `removeSongFromPlaylist`,
from every state: when the user declines the confirmation the state after
the call is the state before it, so that no request is sent and no cache,
cursor or flag changes; and a call that sends any request at all is one
whose confirmation returned true. -/
theorem C14_no_request_without_confirmation (s : State) (songId playlistId : Nat)
    (resp : Fetch Unit) (refresh : RefreshEnv) (switchResp : Fetch (List Song))
    (playlistResp : Fetch (Option (List Song))) (playlistsResp : Fetch (List Playlist)) :
    deleteSong s songId false resp refresh = s ∧
      deletePlaylist s playlistId false resp switchResp refresh = s ∧
      removeSongFromPlaylist s songId false resp playlistResp playlistsResp = s ∧
      (∀ confirmed : Bool,
        ((deleteSong s songId confirmed resp refresh).requests ≠ s.requests →
          confirmed = true) ∧
        ((deletePlaylist s playlistId confirmed resp switchResp refresh).requests ≠
            s.requests → confirmed = true) ∧
        ((removeSongFromPlaylist s songId confirmed resp playlistResp
            playlistsResp).requests ≠ s.requests → confirmed = true)) := by
  refine ⟨rfl, deletePlaylist_declined s playlistId resp switchResp refresh, rfl, ?_⟩
  intro confirmed
  cases confirmed with
  | true => exact ⟨fun _ => rfl, fun _ => rfl, fun _ => rfl⟩
  | false =>
    refine ⟨fun h => absurd rfl h, fun h => ?_, fun h => absurd rfl h⟩
    rw [deletePlaylist_declined] at h
    exact absurd rfl h

theorem C14_no_request_without_confirmation_witness :
    deleteSong playingIntro 1 false (Fetch.ok ()) refreshAllOk = playingIntro ∧
      deletePlaylist playlistView 7 false (Fetch.ok ()) (Fetch.ok sampleSongs) refreshAllOk =
        playlistView ∧
      removeSongFromPlaylist playlistView 3 false (Fetch.ok ()) (Fetch.ok none)
        (Fetch.ok samplePlaylists) = playlistView ∧
      (deletePlaylist playlistView 7 true (Fetch.ok ()) (Fetch.ok sampleSongs)
          refreshAllOk).requests ≠ playlistView.requests ∧
      true = true :=
  ⟨(C14_no_request_without_confirmation playingIntro 1 7 (Fetch.ok ()) refreshAllOk
      (Fetch.ok sampleSongs) (Fetch.ok none) (Fetch.ok samplePlaylists)).1,
    (C14_no_request_without_confirmation playlistView 3 7 (Fetch.ok ()) refreshAllOk
      (Fetch.ok sampleSongs) (Fetch.ok none) (Fetch.ok samplePlaylists)).2.1,
    (C14_no_request_without_confirmation playlistView 3 7 (Fetch.ok ()) refreshAllOk
      (Fetch.ok sampleSongs) (Fetch.ok none) (Fetch.ok samplePlaylists)).2.2.1,
    by decide,
    ((C14_no_request_without_confirmation playlistView 3 7 (Fetch.ok ()) refreshAllOk
      (Fetch.ok sampleSongs) (Fetch.ok none) (Fetch.ok samplePlaylists)).2.2.2 true).2.1
      (by decide)⟩

end MusicLibrary

/-! ## Deleting a playlist -/

namespace MusicLibrary

theorem loadSongs_currentPlaylist (s : State) (resp : Fetch (List Song)) :
    (loadSongs s resp).currentPlaylist = s.currentPlaylist := by
  cases resp <;> rfl

theorem loadPlaylists_currentPlaylist (s : State) (resp : Fetch (List Playlist)) :
    (loadPlaylists s resp).currentPlaylist = s.currentPlaylist := by
  cases resp <;> rfl

theorem loadPlaylists_songs (s : State) (resp : Fetch (List Playlist)) :
    (loadPlaylists s resp).songs = s.songs ∧
      (loadPlaylists s resp).filteredSongs = s.filteredSongs ∧
      (loadPlaylists s resp).sortSelect = s.sortSelect := by
  cases resp <;> exact ⟨rfl, rfl, rfl⟩

theorem loadPlaylists_requests (s : State) (resp : Fetch (List Playlist)) :
    (loadPlaylists s resp).requests = s.requests ++ [Request.getPlaylists] := by
  cases resp <;> rfl

theorem loadSongs_requests (s : State) (resp : Fetch (List Song)) :
    (loadSongs s resp).requests = s.requests ++ [Request.getSongs s.sortSelect] := by
  cases resp <;> rfl

theorem loadSongs_not_ok (s : State) (resp : Fetch (List Song))
    (h : ∀ library, resp ≠ Fetch.ok library) :
    (loadSongs s resp).filteredSongs = s.filteredSongs ∧ (loadSongs s resp).songs = s.songs := by
  cases resp with
  | ok body => exact absurd rfl (h body)
  | fail error => exact ⟨rfl, rfl⟩
  | networkError => exact ⟨rfl, rfl⟩

theorem refreshLibrary_currentPlaylist (s : State) (env : RefreshEnv) :
    (refreshLibrary s env).currentPlaylist = s.currentPlaylist := by
  unfold refreshLibrary
  rw [loadSongs_currentPlaylist, loadPlaylists_currentPlaylist]
  rfl

theorem refreshLibrary_requests (s : State) (env : RefreshEnv) :
    (refreshLibrary s env).requests =
      s.requests ++ [Request.getStats, Request.getPlaylists, Request.getSongs s.sortSelect] := by
  unfold refreshLibrary
  rw [loadSongs_requests, loadPlaylists_requests, (loadPlaylists_songs _ _).2.2]
  simp [loadLibraryStats, sendRequest]

theorem refreshLibrary_songs_ok (s : State) (env : RefreshEnv) (library : List Song)
    (h : env.songs = Fetch.ok library) :
    (refreshLibrary s env).filteredSongs = library ∧ (refreshLibrary s env).songs = library := by
  unfold refreshLibrary
  rw [h]
  exact ⟨rfl, rfl⟩

theorem refreshLibrary_songs_not_ok (s : State) (env : RefreshEnv)
    (h : ∀ library, env.songs ≠ Fetch.ok library) :
    (refreshLibrary s env).filteredSongs = s.filteredSongs ∧
      (refreshLibrary s env).songs = s.songs := by
  unfold refreshLibrary
  rw [(loadSongs_not_ok _ _ h).1, (loadSongs_not_ok _ _ h).2, (loadPlaylists_songs _ _).1,
    (loadPlaylists_songs _ _).2.1]
  exact ⟨rfl, rfl⟩

theorem find?_isSome_of_mem_id (playlists : List Playlist) (playlistId : Nat)
    (hmem : ∃ p ∈ playlists, p.id = playlistId) :
    ∃ playlist, playlists.find? (fun p => p.id == playlistId) = some playlist := by
  obtain ⟨p, hp, hid⟩ := hmem
  cases hfind : playlists.find? (fun p => p.id == playlistId) with
  | some playlist => exact ⟨playlist, rfl⟩
  | none =>
    have := List.find?_eq_none.mp hfind p hp
    simp [hid] at this

theorem deletePlaylist_confirmed_ok (s : State) (playlistId : Nat) (body : Unit)
    (switchResp : Fetch (List Song)) (refresh : RefreshEnv) (playlist : Playlist)
    (hfind : s.playlists.find? (fun p => p.id == playlistId) = some playlist) :
    deletePlaylist s playlistId true (Fetch.ok body) switchResp refresh =
      showNotification
        (refreshLibrary
          (if s.currentPlaylist = toString playlistId then
            switchPlaylist (sendRequest s (Request.deletePlaylist playlistId)) "all" switchResp
              Fetch.networkError
          else sendRequest s (Request.deletePlaylist playlistId)) refresh)
        ("Playlist \"" ++ playlist.name ++ "\" deleted") NotificationType.success := by
  unfold deletePlaylist
  rw [hfind]
  rfl

/-- C15: for a playlist id present in the playlists cache, after a confirmed
`deletePlaylist(id)` whose `DELETE` the service answers with success: if
`currentPlaylist` was the id as a string, then `currentPlaylist` is `'all'`
and `filteredSongs` (and the `songs` cache) is the song list the service
returns to the refresh or, when only the song list request of the switch
is answered, to the switch; if it was not, `currentPlaylist` is unchanged. -/
theorem C15_deletePlaylist_falls_back_to_all (s : State) (playlistId : Nat)
    (switchResp : Fetch (List Song)) (refresh : RefreshEnv)
    (hmem : ∃ p ∈ s.playlists, p.id = playlistId) :
    (s.currentPlaylist = toString playlistId →
      (deletePlaylist s playlistId true (Fetch.ok ()) switchResp refresh).currentPlaylist =
          "all" ∧
        (∀ library, refresh.songs = Fetch.ok library →
          (deletePlaylist s playlistId true (Fetch.ok ()) switchResp refresh).filteredSongs =
              library ∧
            (deletePlaylist s playlistId true (Fetch.ok ()) switchResp refresh).songs =
              library) ∧
        (∀ library, switchResp = Fetch.ok library → (∀ l, refresh.songs ≠ Fetch.ok l) →
          (deletePlaylist s playlistId true (Fetch.ok ()) switchResp refresh).filteredSongs =
              library ∧
            (deletePlaylist s playlistId true (Fetch.ok ()) switchResp refresh).songs =
              library)) ∧
    (s.currentPlaylist ≠ toString playlistId →
      (deletePlaylist s playlistId true (Fetch.ok ()) switchResp refresh).currentPlaylist =
        s.currentPlaylist) := by
  obtain ⟨playlist, hfind⟩ := find?_isSome_of_mem_id s.playlists playlistId hmem
  rw [deletePlaylist_confirmed_ok s playlistId () switchResp refresh playlist hfind]
  constructor
  · intro hactive
    rw [if_pos hactive]
    refine ⟨?_, ?_, ?_⟩
    · show (refreshLibrary _ refresh).currentPlaylist = "all"
      rw [refreshLibrary_currentPlaylist]
      unfold switchPlaylist loadSongs
      cases switchResp <;> rfl
    · intro library hok
      exact refreshLibrary_songs_ok _ refresh library hok
    · intro library hswitch hnot
      show (refreshLibrary _ refresh).filteredSongs = library ∧
        (refreshLibrary _ refresh).songs = library
      rw [(refreshLibrary_songs_not_ok _ refresh hnot).1,
        (refreshLibrary_songs_not_ok _ refresh hnot).2, hswitch]
      exact ⟨rfl, rfl⟩
  · intro hother
    rw [if_neg hother]
    show (refreshLibrary _ refresh).currentPlaylist = s.currentPlaylist
    rw [refreshLibrary_currentPlaylist]
    rfl

theorem C15_deletePlaylist_falls_back_to_all_witness :
    (deletePlaylist playlistView 7 true (Fetch.ok ()) (Fetch.ok sampleSongs)
        refreshAllOk).currentPlaylist = "all" ∧
      (deletePlaylist playlistView 7 true (Fetch.ok ()) (Fetch.ok sampleSongs)
        refreshAllOk).filteredSongs = sampleSongs ∧
      (deletePlaylist (loadPlaylists sampleState (Fetch.ok samplePlaylists)) 7 true (Fetch.ok ())
        (Fetch.ok sampleSongs) refreshAllOk).currentPlaylist = "all" := by
  have h := (C15_deletePlaylist_falls_back_to_all playlistView 7 (Fetch.ok sampleSongs)
    refreshAllOk ⟨{ id := 7, name := "Mix", song_count := 1 }, by decide, rfl⟩).1 (by decide)
  have h2 := (C15_deletePlaylist_falls_back_to_all
    (loadPlaylists sampleState (Fetch.ok samplePlaylists)) 7 (Fetch.ok sampleSongs)
    refreshAllOk ⟨{ id := 7, name := "Mix", song_count := 1 }, by decide, rfl⟩).2 (by decide)
  exact ⟨h.1, (h.2.1 sampleSongs rfl).1, h2⟩

end MusicLibrary

/-! ## Play/pause, play count, playlist creation, empty view -/

namespace MusicLibrary

/-- C16: on a non-empty active view, `togglePlayPause()` is `playSong(0)`
when the transport is paused and has no source, so the cursor becomes 0;
when the transport is paused with a source it calls `play()`, sets
`isPlaying` on success and leaves the cursor alone; when the transport is
not paused it calls `pause()`, clears `isPlaying` and leaves the cursor
alone. -/
theorem C16_togglePlayPause_cases (s : State) (post : Fetch Unit) (play : PlayOutcome)
    (hne : s.filteredSongs ≠ []) :
    (s.audioPlayer.paused = true → s.audioPlayer.src = none →
      togglePlayPause s post play = playSong s 0 post play ∧
      (togglePlayPause s post play).currentSongIndex = 0) ∧
    (s.audioPlayer.paused = true → s.audioPlayer.src ≠ none →
      (togglePlayPause s post play).audioCalls = s.audioCalls ++ [AudioCall.play] ∧
      (togglePlayPause s post play).audioPlayer.src = s.audioPlayer.src ∧
      (togglePlayPause s post play).currentSongIndex = s.currentSongIndex ∧
      (togglePlayPause s post play).requests = s.requests ∧
      (play = PlayOutcome.resolved →
        (togglePlayPause s post play).isPlaying = true ∧
        (togglePlayPause s post play).audioPlayer.paused = false) ∧
      (play = PlayOutcome.rejected →
        (togglePlayPause s post play).isPlaying = s.isPlaying)) ∧
    (s.audioPlayer.paused = false →
      (togglePlayPause s post play).audioCalls = s.audioCalls ++ [AudioCall.pause] ∧
      (togglePlayPause s post play).audioPlayer.paused = true ∧
      (togglePlayPause s post play).isPlaying = false ∧
      (togglePlayPause s post play).currentSongIndex = s.currentSongIndex ∧
      (togglePlayPause s post play).requests = s.requests) := by
  have hlen : ¬ s.filteredSongs.length = 0 := by simpa using hne
  refine ⟨?_, ?_, ?_⟩
  · intro hp hsrc
    have heq : togglePlayPause s post play = playSong s 0 post play := by
      unfold togglePlayPause
      rw [if_neg hlen, if_pos hp, if_pos hsrc]
    exact ⟨heq, by rw [heq]; exact playSong_currentSongIndex s 0 post play hne⟩
  · intro hp hsrc
    unfold togglePlayPause
    rw [if_neg hlen, if_pos hp, if_neg hsrc]
    cases play with
    | resolved =>
      exact ⟨rfl, rfl, rfl, rfl, fun _ => ⟨rfl, rfl⟩, fun h => absurd h (by decide)⟩
    | rejected =>
      exact ⟨rfl, rfl, rfl, rfl, fun h => absurd h (by decide), fun _ => rfl⟩
  · intro hp
    have hp2 : ¬ s.audioPlayer.paused = true := by simp [hp]
    unfold togglePlayPause
    rw [if_neg hlen, if_neg hp2]
    exact ⟨rfl, rfl, rfl, rfl, rfl⟩

theorem C16_togglePlayPause_cases_witness :
    (togglePlayPause sampleState (Fetch.ok ()) PlayOutcome.resolved).currentSongIndex = 0 ∧
      (togglePlayPause playingOutro (Fetch.ok ()) PlayOutcome.resolved).isPlaying = false ∧
      (togglePlayPause playingOutro (Fetch.ok ()) PlayOutcome.resolved).currentSongIndex = 2 ∧
      (togglePlayPause
        (togglePlayPause playingOutro (Fetch.ok ()) PlayOutcome.resolved) (Fetch.ok ())
        PlayOutcome.resolved).isPlaying = true :=
  ⟨((C16_togglePlayPause_cases sampleState (Fetch.ok ()) PlayOutcome.resolved
      (by decide)).1 rfl rfl).2,
    ((C16_togglePlayPause_cases playingOutro (Fetch.ok ()) PlayOutcome.resolved
      (by decide)).2.2 rfl).2.2.1,
    ((C16_togglePlayPause_cases playingOutro (Fetch.ok ()) PlayOutcome.resolved
      (by decide)).2.2 rfl).2.2.2.1,
    (((C16_togglePlayPause_cases
      (togglePlayPause playingOutro (Fetch.ok ()) PlayOutcome.resolved) (Fetch.ok ())
      PlayOutcome.resolved (by decide)).2.1 rfl (by decide)).2.2.2.2.1 rfl).1⟩

/-- C17, as stated, fails: with three songs in view and nothing playing,
`playSong(1)` whose play-count request fails with a network error never
calls `play()`, although the transport would have started the song;
`isPlaying` stays false and `Failed to play song` is reported. -/
theorem C17_network_error_on_play_count_blocks_playback :
    (0 ≤ (1 : Int) ∧ (1 : Int) < (sampleState.filteredSongs.length : Int)) ∧
      AudioCall.play ∉
        (playSong sampleState 1 Fetch.networkError PlayOutcome.resolved).audioCalls ∧
      (playSong sampleState 1 Fetch.networkError PlayOutcome.resolved).isPlaying = false ∧
      (playSong sampleState 1 Fetch.networkError PlayOutcome.resolved).notifications.getLast? =
        some { message := "Failed to play song", type := NotificationType.error } ∧
      (playSong sampleState 1 (Fetch.ok ()) PlayOutcome.resolved).isPlaying = true := by
  decide

/-- C17, amended: for every valid index, `playSong(index)` sets the stream
source to the song and sends one play-count request for it; when that
request is answered, with a success or a failure status alike, `play()` is
called and `isPlaying` becomes true if the transport starts; when it fails
with a network error `play()` is not called, `isPlaying` keeps its value
and `Failed to play song` is reported. -/
theorem C17_playback_depends_on_play_count (s : State) (index : Int) (play : PlayOutcome)
    (h0 : 0 ≤ index) (hN : index < (s.filteredSongs.length : Int)) :
    ∃ song, songAt s.filteredSongs index = some song ∧
      (∀ post : Fetch Unit,
        (playSong s index post play).requests = s.requests ++ [Request.postPlay song.id]) ∧
      (∀ post : Fetch Unit, post ≠ Fetch.networkError →
        (playSong s index post play).audioCalls =
            s.audioCalls ++ [AudioCall.setSrc song.id, AudioCall.play] ∧
          (play = PlayOutcome.resolved → (playSong s index post play).isPlaying = true)) ∧
      ((playSong s index Fetch.networkError play).audioCalls =
          s.audioCalls ++ [AudioCall.setSrc song.id] ∧
        (playSong s index Fetch.networkError play).isPlaying = s.isPlaying ∧
        (playSong s index Fetch.networkError play).notifications =
          s.notifications ++
            [{ message := "Failed to play song", type := NotificationType.error }]) := by
  obtain ⟨song, hsong⟩ := (songAt_isSome_iff s.filteredSongs index).mpr ⟨h0, hN⟩
  have hlen : ¬ s.filteredSongs.length = 0 := by
    intro hz
    rw [hz] at hN
    simp at hN
    omega
  refine ⟨song, hsong, ?_, ?_, ?_⟩
  · intro post
    exact (playSong_of_songAt s index post play song hsong).2.2.2.1
  · intro post hpost
    refine ⟨?_, ?_⟩
    · rw [(playSong_of_songAt s index post play song hsong).2.2.2.2, if_neg hpost]
    · intro hplay
      subst hplay
      unfold playSong
      rw [if_neg hlen]
      cases post with
      | ok body => simp only [hsong]
      | fail error => simp only [hsong]
      | networkError => exact absurd rfl hpost
  · refine ⟨?_, ?_, ?_⟩
    · rw [(playSong_of_songAt s index Fetch.networkError play song hsong).2.2.2.2, if_pos rfl]
    · unfold playSong
      rw [if_neg hlen]
      simp only [hsong]
      rfl
    · unfold playSong
      rw [if_neg hlen]
      simp only [hsong]
      rfl

theorem C17_playback_depends_on_play_count_witness :
    ∃ song, songAt playingIntro.filteredSongs 1 = some song ∧
      (playSong playingIntro 1 (Fetch.fail "unavailable") PlayOutcome.resolved).audioCalls =
        playingIntro.audioCalls ++ [AudioCall.setSrc song.id, AudioCall.play] ∧
      (playSong playingIntro 1 Fetch.networkError PlayOutcome.resolved).audioCalls =
        playingIntro.audioCalls ++ [AudioCall.setSrc song.id] := by
  obtain ⟨song, hsong, -, hanswered, hfailed⟩ :=
    C17_playback_depends_on_play_count playingIntro 1 PlayOutcome.resolved (by decide)
      (by decide)
  exact ⟨song, hsong, (hanswered (Fetch.fail "unavailable") (by decide)).1, hfailed.1⟩

/-- C18: `handleCreatePlaylist` with an empty name sends no request, shows
the error notification `Please enter a playlist name` and leaves the
playlists cache alone, whatever the description; with a non-empty name and
a success answer from the service it runs a full refresh: after the `POST`
come the requests for the statistics, the playlists and the songs, and the
state is the refreshed one with the success notification. -/
theorem C18_handleCreatePlaylist_validates_name (s : State) (description : String)
    (resp : Fetch Unit) (refresh : RefreshEnv) :
    ((handleCreatePlaylist s "" description resp refresh).requests = s.requests ∧
      (handleCreatePlaylist s "" description resp refresh).playlists = s.playlists ∧
      (handleCreatePlaylist s "" description resp refresh).notifications =
        s.notifications ++
          [{ message := "Please enter a playlist name", type := NotificationType.error }]) ∧
    (∀ name : String, name ≠ "" →
      handleCreatePlaylist s name description (Fetch.ok ()) refresh =
        showNotification
          (refreshLibrary (sendRequest s (Request.postPlaylist name description)) refresh)
          ("Playlist \"" ++ name ++ "\" created successfully") NotificationType.success ∧
      (handleCreatePlaylist s name description (Fetch.ok ()) refresh).requests =
        s.requests ++
          [Request.postPlaylist name description, Request.getStats, Request.getPlaylists,
            Request.getSongs s.sortSelect]) := by
  refine ⟨⟨rfl, rfl, rfl⟩, ?_⟩
  intro name hname
  have heq : handleCreatePlaylist s name description (Fetch.ok ()) refresh =
      showNotification
        (refreshLibrary (sendRequest s (Request.postPlaylist name description)) refresh)
        ("Playlist \"" ++ name ++ "\" created successfully") NotificationType.success := by
    unfold handleCreatePlaylist
    rw [if_neg hname]
  refine ⟨heq, ?_⟩
  rw [heq]
  show (refreshLibrary (sendRequest s (Request.postPlaylist name description)) refresh).requests
    = _
  rw [refreshLibrary_requests]
  simp [sendRequest]

theorem C18_handleCreatePlaylist_validates_name_witness :
    (handleCreatePlaylist sampleState "" "notes" (Fetch.ok ()) refreshAllOk).requests =
        sampleState.requests ∧
      (handleCreatePlaylist sampleState "Mix" "notes" (Fetch.ok ()) refreshAllOk).requests =
        sampleState.requests ++
          [Request.postPlaylist "Mix" "notes", Request.getStats, Request.getPlaylists,
            Request.getSongs sampleState.sortSelect] :=
  ⟨(C18_handleCreatePlaylist_validates_name sampleState "notes" (Fetch.ok ()) refreshAllOk).1.1,
    ((C18_handleCreatePlaylist_validates_name sampleState "notes" (Fetch.ok ())
      refreshAllOk).2 "Mix" (by decide)).2⟩

/-- C19: when `filteredSongs` is empty, `playSong(index)` for any index,
`togglePlayPause()`, `playNext()` and `playPrevious()` return the state
they were given: cursor, flags, transport and request trace are untouched
and no element of the list is read. -/
theorem C19_empty_view_is_noop (s : State) (index : Int) (r : ℚ) (post : Fetch Unit)
    (play : PlayOutcome) (hempty : s.filteredSongs.length = 0) :
    playSong s index post play = s ∧ togglePlayPause s post play = s ∧
      playNext s r post play = s ∧ playPrevious s post play = s := by
  refine ⟨?_, ?_, ?_, ?_⟩
  · unfold playSong
    rw [if_pos hempty]
  · unfold togglePlayPause
    rw [if_pos hempty]
  · unfold playNext
    rw [if_pos hempty]
  · unfold playPrevious
    rw [if_pos hempty]

theorem C19_empty_view_is_noop_witness :
    playSong (State.initial "No song selected" "Select a song to play" "title") 0 (Fetch.ok ())
        PlayOutcome.resolved = State.initial "No song selected" "Select a song to play" "title" ∧
      playPrevious (State.initial "No song selected" "Select a song to play" "title")
        (Fetch.ok ()) PlayOutcome.resolved =
        State.initial "No song selected" "Select a song to play" "title" :=
  ⟨(C19_empty_view_is_noop (State.initial "No song selected" "Select a song to play" "title") 0 0
      (Fetch.ok ()) PlayOutcome.resolved rfl).1,
    (C19_empty_view_is_noop (State.initial "No song selected" "Select a song to play" "title") 0 0
      (Fetch.ok ()) PlayOutcome.resolved rfl).2.2.2⟩

end MusicLibrary

/-! ## Upload -/

namespace MusicLibrary

/-- C10, as stated, fails: one file is selected together with playlist 7,
and the upload is answered with status 200 and the body `null`. The file is
successful (`ok` is true) and `uploadedCount` ends at 1, yet `errors` holds
an entry for it, so `uploadedCount + |errors|` is 2 while `T` is 1, and the
warning is shown although no file failed. -/
theorem C10_null_body_counted_twice :
    nullBodyFiles.length = 1 ∧
      nullBodyFiles.countP UploadFile.succeeded = 1 ∧
      (uploadLoop sampleState nullBodyFiles "7").uploadedCount = 1 ∧
      (uploadLoop sampleState nullBodyFiles "7").errors = ["a.mp3: Network error"] ∧
      (uploadLoop sampleState nullBodyFiles "7").uploadedCount +
        (uploadLoop sampleState nullBodyFiles "7").errors.length ≠ nullBodyFiles.length ∧
      (handleUpload sampleState nullBodyFiles "7" (refreshOk sampleSongs)).notifications.getLast? =
        some { message := "Uploaded 1/1 files. Errors: a.mp3: Network error",
               type := NotificationType.warning } := by
  decide

/-- C10, amended: for `T >= 1` files with any outcomes, `handleUpload` sends
one upload request per file, in file order, whatever the earlier outcomes,
and then the three requests of the refresh; its last notification is the
one built from `uploadedCount`, the number of files answered with `ok` true,
from `T`, and from `errors`, which holds in file order one entry per file
that was answered with an error status or not answered, and one per file
answered with `ok` true and the body `null` while a playlist is selected;
so `uploadedCount + |errors|` is `T` plus the number of files of the last
kind, and is `T` when there is none; the notification is the warning one
exactly when `errors` is not empty. -/
theorem C10_handleUpload_counts_and_collects (s : State) (files : List UploadFile)
    (playlistId : String) (refresh : RefreshEnv) (hT : 1 ≤ files.length) :
    (handleUpload s files playlistId refresh).requests.filterMap uploadedName =
        s.requests.filterMap uploadedName ++ files.map UploadFile.name ∧
      (handleUpload s files playlistId refresh).requests =
        (uploadLoop s files playlistId).state.requests ++
          [Request.getStats, Request.getPlaylists,
            Request.getSongs (uploadLoop s files playlistId).state.sortSelect] ∧
      (handleUpload s files playlistId refresh).notifications.getLast? =
        some (uploadNotification (files.countP UploadFile.succeeded) files.length
          (files.filterMap (uploadError playlistId))) ∧
      (uploadLoop s files playlistId).uploadedCount = files.countP UploadFile.succeeded ∧
      (uploadLoop s files playlistId).errors = files.filterMap (uploadError playlistId) ∧
      (uploadLoop s files playlistId).uploadedCount +
          (uploadLoop s files playlistId).errors.length =
        files.length + files.countP (UploadFile.countedTwice playlistId) ∧
      ((∀ file ∈ files, file.countedTwice playlistId = false) →
        (uploadLoop s files playlistId).uploadedCount +
          (uploadLoop s files playlistId).errors.length = files.length) ∧
      ((handleUpload s files playlistId refresh).notifications.getLast?.map Notification.type =
          some NotificationType.warning ↔
        files.filterMap (uploadError playlistId) ≠ []) := by
  have hc := uploadLoop_uploadedCount s files playlistId
  have he := uploadLoop_errors s files playlistId
  have hr := uploadLoop_requests s files playlistId
  have hstate := handleUpload_of_files s files playlistId refresh hT
  have hreq : (handleUpload s files playlistId refresh).requests =
      (uploadLoop s files playlistId).state.requests ++
        [Request.getStats, Request.getPlaylists,
          Request.getSongs (uploadLoop s files playlistId).state.sortSelect] := by
    rw [hstate]
    exact refreshLibrary_requests _ _
  have hlast : (handleUpload s files playlistId refresh).notifications.getLast? =
      some (uploadNotification (files.countP UploadFile.succeeded) files.length
        (files.filterMap (uploadError playlistId))) := by
    rw [hstate, hc, he]
    simp [showNotification]
  have hsum := length_filterMap_uploadError playlistId files
  refine ⟨?_, hreq, hlast, hc, he, ?_, ?_, ?_⟩
  · rw [hreq, List.filterMap_append, hr]
    simp [uploadedName]
  · rw [hc, he]
    exact hsum
  · intro hnone
    have hzero : files.countP (UploadFile.countedTwice playlistId) = 0 := by
      rw [List.countP_eq_zero]
      intro file hmem
      rw [hnone file hmem]
      decide
    rw [hc, he, hsum, hzero, Nat.add_zero]
  · rw [hlast, Option.map_some', Option.some.injEq]
    exact uploadNotification_warning_iff _ _ _

theorem C10_handleUpload_counts_and_collects_witness :
    (uploadLoop sampleState sampleFiles "").uploadedCount = 2 ∧
      (uploadLoop sampleState sampleFiles "").errors = ["two.mp3: Upload failed"] ∧
      (handleUpload sampleState sampleFiles "" (refreshOk sampleSongs)).notifications.getLast? =
        some { message := "Uploaded 2/3 files. Errors: two.mp3: Upload failed",
               type := NotificationType.warning } ∧
      (handleUpload sampleState sampleFiles "" (refreshOk sampleSongs)).requests.filterMap
        uploadedName = ["one.mp3", "two.mp3", "three.mp3"] := by
  have h := C10_handleUpload_counts_and_collects sampleState sampleFiles ""
    (refreshOk sampleSongs) (by decide)
  exact ⟨h.2.2.2.1, h.2.2.2.2.1, h.2.2.1, h.1⟩

end MusicLibrary

/-! ## Time display -/

namespace MusicLibrary

theorem digitsValue_append_singleton (l : List Char) (c : Char) :
    digitsValue (l ++ [c]) = 10 * digitsValue l + (c.toNat - 48) := by
  simp [digitsValue, List.foldl_append]

theorem digitChar_value (k : Nat) (hk : k < 10) : (Nat.digitChar k).toNat - 48 = k := by
  interval_cases k <;> rfl

/-- Reading back the digits that `Nat.toDigitsCore` puts in front of `ds`. -/
theorem toDigitsCore_value (fuel : Nat) :
    ∀ (n : Nat) (ds : List Char), n < fuel →
      ∃ xs, Nat.toDigitsCore 10 fuel n ds = xs ++ ds ∧ digitsValue xs = n := by
  induction fuel with
  | zero => intro n ds h; exact absurd h (Nat.not_lt_zero n)
  | succ fuel ih =>
    intro n ds h
    unfold Nat.toDigitsCore
    dsimp only
    split
    · rename_i hq
      refine ⟨[Nat.digitChar (n % 10)], rfl, ?_⟩
      have hlt : n < 10 := by omega
      have : digitsValue [Nat.digitChar (n % 10)] = (Nat.digitChar (n % 10)).toNat - 48 := by
        simp [digitsValue]
      rw [this, digitChar_value (n % 10) (Nat.mod_lt n (by norm_num))]
      omega
    · rename_i hq
      obtain ⟨xs, hxs, hval⟩ := ih (n / 10) (Nat.digitChar (n % 10) :: ds) (by omega)
      refine ⟨xs ++ [Nat.digitChar (n % 10)], ?_, ?_⟩
      · rw [hxs]
        simp
      · rw [digitsValue_append_singleton, hval,
          digitChar_value (n % 10) (Nat.mod_lt n (by norm_num))]
        omega

theorem digitsValue_repr (n : Nat) : digitsValue (toString n).data = n := by
  obtain ⟨xs, hxs, hval⟩ := toDigitsCore_value (n + 1) n [] (Nat.lt_succ_self n)
  have hdata : (toString n).data = Nat.toDigits 10 n := rfl
  rw [hdata]
  unfold Nat.toDigits
  rw [hxs, List.append_nil, hval]

theorem twoDigits_spec :
    ∀ k, k < 60 →
      (twoDigits k).data = [Nat.digitChar (k / 10), Nat.digitChar (k % 10)] ∧
        digitsValue (twoDigits k).data = k := by
  decide

theorem floor_div_sixty (n : Nat) : ⌊(n : ℚ) / 60⌋ = ((n / 60 : Nat) : Int) := by
  have h := Rat.floor_natCast_div_natCast n 60
  rw [Nat.cast_ofNat] at h
  rw [h]
  norm_cast

/-- The remainder by 60 of a whole number is exact. -/
theorem rem_sixty (n : Nat) :
    (JsNumber.finite (n : ℚ)).rem (JsNumber.finite 60) =
      JsNumber.finite ((n % 60 : Nat) : ℚ) := by
  simp only [JsNumber.rem]
  rw [if_neg (by norm_num)]
  have hnonneg : (0 : ℚ) ≤ (n : ℚ) / 60 := div_nonneg (Nat.cast_nonneg n) (by norm_num)
  rw [if_pos hnonneg, floor_div_sixty]
  have hsplit : (n : ℚ) = 60 * ((n / 60 : Nat) : ℚ) + ((n % 60 : Nat) : ℚ) := by
    exact_mod_cast (Nat.div_add_mod n 60).symm
  rw [Int.cast_natCast]
  congr 1
  linarith

/-- A whole number below `2 ^ 53` is written with all its digits. -/
theorem numberToString_natCast (k : Nat) (hk : k < 2 ^ 53) :
    numberToString (JsNumber.finite (((k : Nat) : Int) : ℚ)) = toString k := by
  simp only [numberToString]
  have h1 : (((k : Nat) : Int) : ℚ) = ((⌊(((k : Nat) : Int) : ℚ)⌋ : Int) : ℚ) := by
    rw [Int.floor_intCast]
  have h2 : |(((k : Nat) : Int) : ℚ)| < 2 ^ (53 : ℕ) := by
    rw [abs_of_nonneg (by positivity)]
    exact_mod_cast hk
  rw [if_pos ⟨h1, h2⟩, Int.floor_intCast]
  rfl

/-- The value of `formatTime` on a whole number of seconds, from the
double quotient by 60. -/
theorem formatTime_of_minutes (n M : Nat) (q : ℚ) (hM : M < 2 ^ 53)
    (hdiv : toNumber ((n : ℚ) / 60) = JsNumber.finite q) (hfloor : ⌊q⌋ = (M : Int)) :
    formatTime (JsNumber.finite (n : ℚ)) = toString M ++ ":" ++ twoDigits (n % 60) := by
  unfold formatTime twoDigits
  have hnan : (JsNumber.finite (n : ℚ)).isNaN = false := rfl
  have hdiv2 : (JsNumber.finite (n : ℚ)).div (JsNumber.finite 60) = JsNumber.finite q := by
    simp only [JsNumber.div]
    rw [if_neg (by norm_num)]
    exact hdiv
  rw [hnan, hdiv2, rem_sixty]
  simp only [Bool.false_eq_true, if_false, JsNumber.floor]
  have hfl : ⌊((n % 60 : Nat) : ℚ)⌋ = ((n % 60 : Nat) : Int) := Int.floor_natCast _
  simp only [hfloor, hfl]
  rw [numberToString_natCast M hM,
    numberToString_natCast (n % 60) (lt_trans (Nat.mod_lt n (by norm_num)) (by norm_num))]
  have hlt : (JsNumber.finite (((n % 60 : Nat) : Int) : ℚ)).lt (JsNumber.finite 10) = true ↔
      n % 60 < 10 := by
    simp only [JsNumber.lt, decide_eq_true_eq]
    constructor
    · intro h
      exact_mod_cast h
    · intro h
      exact_mod_cast h
  by_cases h : n % 60 < 10
  · rw [if_pos (hlt.mpr h), if_pos h, String.append_assoc]
  · rw [if_neg (fun h2 => h (hlt.mp h2)), if_neg h, String.append_assoc]

/-- The value of `formatTime` on a whole number of seconds below `2 ^ 53`. -/
theorem formatTime_natCast (n : Nat) (hn : n < 2 ^ 53) :
    formatTime (JsNumber.finite (n : ℚ)) = toString (n / 60) ++ ":" ++ twoDigits (n % 60) :=
  formatTime_of_minutes n (n / 60) _ (lt_of_le_of_lt (Nat.div_le_self n 60) hn)
    (floor_roundNearest_div_sixty n hn).2 (floor_roundNearest_div_sixty n hn).1

theorem formatTime_natCast_injective (m n : Nat) (hm2 : m < 2 ^ 53) (hn2 : n < 2 ^ 53)
    (h : formatTime (JsNumber.finite (m : ℚ)) = formatTime (JsNumber.finite (n : ℚ))) :
    m = n := by
  rw [formatTime_natCast m hm2, formatTime_natCast n hn2] at h
  have hdata := congrArg String.data h
  simp only [String.data_append] at hdata
  have hm := twoDigits_spec (m % 60) (Nat.mod_lt m (by norm_num))
  have hn := twoDigits_spec (n % 60) (Nat.mod_lt n (by norm_num))
  have hlen : (twoDigits (m % 60)).data.length = (twoDigits (n % 60)).data.length := by
    rw [hm.1, hn.1]
    rfl
  obtain ⟨hleft, hright⟩ := List.append_inj' hdata hlen
  have hsec : m % 60 = n % 60 := by
    rw [← hm.2, ← hn.2, hright]
  obtain ⟨hmins, -⟩ := List.append_inj' hleft rfl
  have hmin : m / 60 = n / 60 := by
    rw [← digitsValue_repr (m / 60), ← digitsValue_repr (n / 60), hmins]
  rw [← Nat.div_add_mod m 60, ← Nat.div_add_mod n 60, hmin, hsec]

/-- C20, as stated, fails: `540431955284459456` is a non-negative whole
number of seconds (and a double), the floor of its quotient by 60 is
`9007199254740990`, but `formatTime` writes `9007199254740991:56`: the
quotient is rounded up to a whole double before `Math.floor` is taken, and
`60 * minutes + seconds` is then not the input. -/
theorem C20_minutes_field_is_rounded :
    IsDouble 540431955284459456 ∧
      formatTime (JsNumber.finite 540431955284459456) = "9007199254740991:56" ∧
      540431955284459456 / 60 = 9007199254740990 ∧
      540431955284459456 % 60 = 56 ∧
      formatTime (JsNumber.finite 540431955284459456) ≠
        toString (540431955284459456 / 60) ++ ":" ++ twoDigits (540431955284459456 % 60) ∧
      60 * 9007199254740991 + 56 ≠ 540431955284459456 := by
  have hd : IsDouble 540431955284459456 :=
    isDouble_of_binade_pos _ 58 8444249301319679 (by norm_num) (by norm_num) (by norm_num)
      (by norm_num) (by norm_num)
  have hr : roundNearest ((540431955284459456 : ℚ) / 60) = 9007199254740991 := by
    rw [roundNearest_eq_of_near_pos _ 52 9007199254740991 (by norm_num) (by norm_num)
      (by norm_num) (by norm_num) (by norm_num)]
    norm_num
  have hq : toNumber (((540431955284459456 : Nat) : ℚ) / 60) =
      JsNumber.finite 9007199254740991 := by
    rw [Nat.cast_ofNat, toNumber_of_bounds _ (by rw [hr]; norm_num) (by rw [hr]; norm_num), hr]
  have hf : ⌊(9007199254740991 : ℚ)⌋ = ((9007199254740991 : Nat) : Int) := by
    rw [Int.floor_eq_iff]
    norm_num
  have h := formatTime_of_minutes 540431955284459456 9007199254740991 _ (by norm_num) hq hf
  rw [Nat.cast_ofNat] at h
  refine ⟨hd, ?_, by norm_num, by norm_num, ?_, by norm_num⟩
  · rw [h]
    decide
  · rw [h]
    decide

/-- C20, amended: for a whole number `n` of seconds with `0 <= n < 2 ^ 53`,
`formatTime(n)` is the decimal rendering of `floor(n / 60)`, then `:`, then
`n mod 60` written with exactly two digits (a leading zero below 10); the
seconds field is a two-digit value below 60, `60 * minutes + seconds = n`,
and distinct inputs below `2 ^ 53` give distinct outputs. For `NaN` the
result is `0:00`. -/
theorem C20_formatTime_minutes_seconds (n : Nat) (hn : n < 2 ^ 53) :
    formatTime (JsNumber.finite (n : ℚ)) =
        toString (n / 60) ++ ":" ++ twoDigits (n % 60) ∧
      (twoDigits (n % 60)).data =
        [Nat.digitChar (n % 60 / 10), Nat.digitChar (n % 60 % 10)] ∧
      (twoDigits (n % 60)).length = 2 ∧
      n % 60 < 60 ∧
      60 * (n / 60) + n % 60 = n ∧
      (∀ m : Nat, m < 2 ^ 53 → m ≠ n →
        formatTime (JsNumber.finite (m : ℚ)) ≠ formatTime (JsNumber.finite (n : ℚ))) ∧
      formatTime JsNumber.nan = "0:00" := by
  have hsec := twoDigits_spec (n % 60) (Nat.mod_lt n (by norm_num))
  refine ⟨formatTime_natCast n hn, hsec.1, ?_, Nat.mod_lt n (by norm_num),
    Nat.div_add_mod n 60, ?_, rfl⟩
  · show (twoDigits (n % 60)).data.length = 2
    rw [hsec.1]
    rfl
  · intro m hm hne heq
    exact hne (formatTime_natCast_injective m n hm hn heq)

theorem C20_formatTime_minutes_seconds_witness :
    formatTime (JsNumber.finite ((125 : Nat) : ℚ)) = "2:05" ∧
      formatTime (JsNumber.finite ((65 : Nat) : ℚ)) ≠
        formatTime (JsNumber.finite ((125 : Nat) : ℚ)) :=
  ⟨(C20_formatTime_minutes_seconds 125 (by norm_num)).1,
    (C20_formatTime_minutes_seconds 125 (by norm_num)).2.2.2.2.2.1 65 (by norm_num)
      (by decide)⟩

end MusicLibrary
